import Mathlib

/-!
# Verification of the message classification and cache store

This development embeds `src/lib/messageStorage.ts` of the
telegram-message-organizer repository: the `MessageStorageService` class, its
data model (messages, discriminated peer references, chats) and its operations
(`determineChatType`, `isPersonalMessage`, the three category getters,
`getGroupedMessagesByCategory`, `verifyMessageCategory`, and the
identity/cache lifecycle).  The mutable service instance is embedded as an
explicit state record `StoreState`; every method that mutates `this` returns
the new state.  JavaScript truthiness of the optional fields involved
(`chat.title`, `this.currentUserId`, `chat.participants_count`, `message.peerId`)
is modelled explicitly.  `console.warn` output is recorded in a ghost field
`consoleWarnings`.  `Date.now()` is passed in as an explicit `now : Nat`
argument at the call sites that read the clock.

Title matching: the source's regular expressions are plain alternations of
literal substrings (plus the `i` flag), so they are embedded as substring
tests against the verbatim lists of alternatives.  The `i` flag is modelled by
lowercasing the text characterwise (the lexicon entries are already
lowercase); this folds ASCII exactly and leaves non-ASCII letters unchanged,
which is the only deviation from JavaScript's full Unicode case folding, and
no statement below depends on an uppercase non-ASCII title.
-/

namespace MessageStorage

/-- Enumeration of chat types for categorisation (source `enum ChatType`). -/
inductive ChatType where
  | PERSONAL
  | NEWS
  | DISCUSSION
  | UNKNOWN
deriving DecidableEq, Repr

/-- Discriminated peer reference (`message.peer_id` / `message.from_id`): the
source compares the discriminator `_` against 'peerUser', 'peerChat' and
'peerChannel' and reads `user_id` from user peers. -/
inductive Peer where
  | peerUser (user_id : Int)
  | peerChat (chat_id : Int)
  | peerChannel (channel_id : Int)
deriving DecidableEq, Repr

/-- Chat entity as the source reads it: `kind` embeds the string discriminator
`_` (compared against 'user', 'chat', 'chatFull', 'channel', 'channelFull'),
`bot` embeds the truthiness of `(chat as any).bot` (absent field is falsy),
and `participants_count` is optional.  Fields of the telegram types never read
by this service are omitted. -/
structure Chat where
  kind : String
  id : Int
  title : Option String := none
  bot : Bool := false
  participants_count : Option Int := none
deriving DecidableEq, Repr

/-- Message as the source reads it: `peer_id` and `from_id` are optional
discriminated peers, and `peerId` is the field the source casts to a `Chat`
(`message.peerId as unknown as Chat`) and checks for truthiness — the resolved
conversation entity, possibly absent.  Unread fields are omitted. -/
structure Message where
  id : Int
  peer_id : Option Peer := none
  peerId : Option Chat := none
  from_id : Option Peer := none
deriving DecidableEq, Repr

/-- Result record of `getGroupedMessagesByCategory`. -/
structure GroupedMessages where
  personal : List Message
  news : List Message
  discussion : List Message
deriving DecidableEq, Repr

/-- State of a `MessageStorageService` instance.  The three result caches are
`Map<string, Message[]>` in the source but each is only ever accessed at its
single fixed key ('personal' / 'news' / 'discussion'), so each is embedded as
an `Option (List Message)`.  The classification cache is keyed by
`chat.id.toString()`; since `toString` is injective on the numeric ids it is
embedded as an association list keyed by the id itself. -/
structure StoreState where
  messages : List Message := []
  personalMessagesCache : Option (List Message) := none
  newsMessagesCache : Option (List Message) := none
  discussionMessagesCache : Option (List Message) := none
  chatTypeCache : List (Int × ChatType) := []
  currentUserId : Option Int := none
  lastCategorization : Nat := 0
  consoleWarnings : List String := []
deriving DecidableEq, Repr

/-- The alternatives of the case-insensitive CHANNEL_PATTERNS regular expression (source line 16). -/
def CHANNEL_PATTERNS : List String :=
  ["channel", "канал", "news", "новост", "блог", "blog",
   "official", "официальн", "feed", "бот", "bot", "service",
   "telegram", "admin", "info", "alert", "notify", "update",
   "digest", "daily", "weekly", "bulletin", "report", "travel",
   "туризм", "phangan", "курорт", "отдых", "отпуск", "тур",
   "гид", "экскурс"]

/-- The alternatives of the case-insensitive GROUP_PATTERNS regular expression (source line 17). -/
def GROUP_PATTERNS : List String :=
  ["group", "группа", "chat", "чат", "discuss", "дискусс",
   "community", "сообщество"]

/-- Tests whether the second character list starts with the first. -/
def charsStartWith : List Char → List Char → Bool
  | [], _ => true
  | _ :: _, [] => false
  | p :: ps, t :: ts => p == t && charsStartWith ps ts

/-- Tests whether the pattern occurs as a contiguous sublist of the text. -/
def charsContain (pat : List Char) : List Char → Bool
  | [] => charsStartWith pat []
  | t :: ts => charsStartWith pat (t :: ts) || charsContain pat ts

/-- ASCII-folding lowercase used to model `toLowerCase` and the `i` flag: maps
`Char.toLower` over the characters (structural recursion over the character
list, so that it evaluates by kernel reduction). -/
def lowerString (s : String) : String := String.mk (s.data.map Char.toLower)

/-- JavaScript `regex.test(text)` for a regular expression that is a plain
alternation of literal strings. -/
def matchesAny (pats : List String) (text : String) : Bool :=
  pats.any (fun p => charsContain p.data text.data)

/-- The `i`-flagged CHANNEL_PATTERNS test: the lexicon is lowercase, so the
text is lowercased before the substring scan. -/
def channelKeywordTest (t : String) : Bool := matchesAny CHANNEL_PATTERNS (lowerString t)

/-- The `i`-flagged GROUP_PATTERNS test. -/
def groupKeywordTest (t : String) : Bool := matchesAny GROUP_PATTERNS (lowerString t)

/-- The flag-emoji alternatives of the hasFlag regular expression in isPublicChannelByName (source line 79). -/
def flagEmojiList : List String :=
  ["🇦🇨", "🇦🇩", "🇦🇪", "🇦🇫", "🇦🇬", "🇦🇮", "🇦🇱", "🇦🇲", "🇦🇴", "🇦🇶",
   "🇦🇷", "🇦🇸", "🇦🇹", "🇦🇺", "🇦🇼", "🇦🇽", "🇦🇿", "🇧🇦", "🇧🇧", "🇧🇩",
   "🇧🇪", "🇧🇫", "🇧🇬", "🇧🇭", "🇧🇮", "🇧🇯", "🇧🇱", "🇧🇲", "🇧🇳", "🇧🇴",
   "🇧🇶", "🇧🇷", "🇧🇸", "🇧🇹", "🇧🇻", "🇧🇼", "🇧🇾", "🇧🇿", "🇨🇦", "🇨🇨",
   "🇨🇩", "🇨🇫", "🇨🇬", "🇨🇭", "🇨🇮", "🇨🇰", "🇨🇱", "🇨🇲", "🇨🇳", "🇨🇴",
   "🇨🇵", "🇨🇷", "🇨🇺", "🇨🇻", "🇨🇼", "🇨🇽", "🇨🇾", "🇨🇿", "🇩🇪", "🇩🇬",
   "🇩🇯", "🇩🇰", "🇩🇲", "🇩🇴", "🇩🇿", "🇪🇦", "🇪🇨", "🇪🇪", "🇪🇬", "🇪🇭",
   "🇪🇷", "🇪🇸", "🇪🇹", "🇪🇺", "🇫🇮", "🇫🇯", "🇫🇰", "🇫🇲", "🇫🇴", "🇫🇷",
   "🇬🇦", "🇬🇧", "🇬🇩", "🇬🇪", "🇬🇫", "🇬🇬", "🇬🇭", "🇬🇮", "🇬🇱", "🇬🇲",
   "🇬🇳", "🇬🇵", "🇬🇶", "🇬🇷", "🇬🇸", "🇬🇹", "🇬🇺", "🇬🇼", "🇬🇾", "🇭🇰",
   "🇭🇲", "🇭🇳", "🇭🇷", "🇭🇹", "🇭🇺", "🇮🇨", "🇮🇩", "🇮🇪", "🇮🇱", "🇮🇲",
   "🇮🇳", "🇮🇴", "🇮🇶", "🇮🇷", "🇮🇸", "🇮🇹", "🇯🇪", "🇯🇲", "🇯🇴", "🇯🇵",
   "🇰🇪", "🇰🇬", "🇰🇭", "🇰🇮", "🇰🇲", "🇰🇳", "🇰🇵", "🇰🇷", "🇰🇼", "🇰🇾",
   "🇰🇿", "🇱🇦", "🇱🇧", "🇱🇨", "🇱🇮", "🇱🇰", "🇱🇷", "🇱🇸", "🇱🇹", "🇱🇺",
   "🇱🇻", "🇱🇾", "🇲🇦", "🇲🇨", "🇲🇩", "🇲🇪", "🇲🇫", "🇲🇬", "🇲🇭", "🇲🇰",
   "🇲🇱", "🇲🇲", "🇲🇳", "🇲🇴", "🇲🇵", "🇲🇶", "🇲🇷", "🇲🇸", "🇲🇹", "🇲🇺",
   "🇲🇻", "🇲🇼", "🇲🇽", "🇲🇾", "🇲🇿", "🇳🇦", "🇳🇨", "🇳🇪", "🇳🇫", "🇳🇬",
   "🇳🇮", "🇳🇱", "🇳🇴", "🇳🇵", "🇳🇷", "🇳🇺", "🇳🇿", "🇴🇲", "🇵🇦", "🇵🇪",
   "🇵🇫", "🇵🇬", "🇵🇭", "🇵🇰", "🇵🇱", "🇵🇲", "🇵🇳", "🇵🇷", "🇵🇸", "🇵🇹",
   "🇵🇼", "🇵🇾", "🇶🇦", "🇷🇪", "🇷🇴", "🇷🇸", "🇷🇺", "🇷🇼", "🇸🇦", "🇸🇧",
   "🇸🇨", "🇸🇩", "🇸🇪", "🇸🇬", "🇸🇭", "🇸🇮", "🇸🇯", "🇸🇰", "🇸🇱", "🇸🇲",
   "🇸🇳", "🇸🇴", "🇸🇷", "🇸🇸", "🇸🇹", "🇸🇻", "🇸🇽", "🇸🇾", "🇸🇿", "🇹🇦",
   "🇹🇨", "🇹🇩", "🇹🇫", "🇹🇬", "🇹🇭", "🇹🇯", "🇹🇰", "🇹🇱", "🇹🇲", "🇹🇳",
   "🇹🇴", "🇹🇷", "🇹🇹", "🇹🇻", "🇹🇼", "🇹🇿", "🇺🇦", "🇺🇬", "🇺🇲", "🇺🇳",
   "🇺🇸", "🇺🇾", "🇺🇿", "🇻🇦", "🇻🇨", "🇻🇪", "🇻🇬", "🇻🇮", "🇻🇳", "🇻🇺",
   "🇼🇫", "🇼🇸", "🇽🇰", "🇾🇪", "🇾🇹", "🇿🇦", "🇿🇲", "🇿🇼"]

/-- The alternatives of the hasTravelKeywords regular expression in isPublicChannelByName (source line 85); the list is kept verbatim, duplicates and the mojibake entry included. -/
def travelKeywordList : List String :=
  ["черногори", "пангаи", "таиланд", "бали",
   "вьетнам", "турци", "испани", "итали",
   "греци", "кипр", "дубай", "оаэ",
   "эмират", "египет", "индонези", "малайзи",
   "сингапур", "япони", "корея", "китай",
   "гонконг", "макао", "тайвань", "филиппин",
   "камбодж", "лаос", "мьянма", "непал",
   "индия", "шри-ланка", "мальдив", "сейшел",
   "маврикий", "занзибар", "танзания", "кения",
   "марокко", "тунис", "алжир", "ливия",
   "египет", "иордания", "израиль", "ливан",
   "сирия", "иран", "ирак", "саудовская аравия",
   "катар", "бахрейн", "оман", "йемен",
   "афганистан", "пакистан", "бангладеш", "бутан",
   "мьянма", "таиланд", "лаос", "камбоджа",
   "вьетнам", "малайзия", "сингапур", "индонезия",
   "бруней", "филиппины", "тайвань", "китай",
   "монголия", "северная корея", "южная корея", "япония",
   "россия", "украина", "беларусь", "молдова",
   "румыния", "болгария", "сербия", "черногория",
   "босния и герцеговина", "хорватия", "словения", "венгрия",
   "австрия", "чехия", "словакия", "польша",
   "литва", "латвия", "эстония", "финляндия",
   "швеция", "норвегия", "дания", "исландия",
   "великобритания", "ирландия", "франция", "бельгия",
   "нидерланды", "люксембург", "германия", "швейцария",
   "лихтенштейн", "италия", "ватикан", "сан-марино",
   "мальта", "испания", "португалия", "андорра",
   "монако", "греция", "албания", "северная македония",
   "косово", "черногория", "сербия", "босния и герцеговина",
   "хорватия", "словения", "кипр", "турция",
   "грузия", "армения", "азербайджан", "каз\uFFFD\uFFFDхстан",
   "узбекистан", "туркменистан", "кыргызстан", "таджикистан",
   "афганистан", "пакистан", "индия", "непал",
   "бутан", "бангладеш", "шри-ланка", "мальдивы",
   "сейшелы", "маврикий", "коморы", "мадагаскар",
   "танзания", "кения", "уганда", "руанда",
   "бурунди", "конго", "ангола", "намибия",
   "ботсвана", "зимбабве", "замбия", "малави",
   "мозамбик", "свазиленд", "лесото", "южная африка",
   "марокко", "алжир", "тунис", "ливия",
   "египет", "судан", "эритрея", "эфиопия",
   "джибути", "сомали", "кения", "уганда",
   "руанда", "бурунди", "танзания", "мозамбик",
   "малави", "замбия", "зимбабве", "ботсвана",
   "намибия", "ангола", "конго", "габон",
   "экваториальная гвинея", "камерун", "нигерия", "бенин",
   "того", "гана", "кот-д\x27ивуар", "либерия",
   "сьерра-леоне", "гвинея", "гвинея-бисау", "сенегал",
   "гамбия", "кабо-верде", "мавритания", "мали",
   "буркина-фасо", "нигер", "чад", "центральноафриканская республика",
   "южный судан", "эфиопия", "эритрея", "джибути",
   "сомали", "кения", "танзания", "уганда",
   "руанда", "бурунди", "конго", "ангола",
   "замбия", "зимбабве", "мозамбик", "малави",
   "коморы", "сейшелы", "маврикий", "мадагаскар",
   "реюньон", "майотта", "канада", "сша",
   "мексика", "гватемала", "белиз", "сальвадор",
   "гондурас", "никарагуа", "коста-рика", "панама",
   "колумбия", "венесуэла", "гайана", "суринам",
   "французская гвиана", "бразилия", "перу", "эквадор",
   "боливия", "парагвай", "чили", "аргентина",
   "уругвай", "фолклендские острова", "австралия", "новая зеландия",
   "папуа-новая гвинея", "соломоновы острова", "вануату", "фиджи",
   "тонга", "самоа", "кирибати", "тувалу",
   "науру", "маршалловы острова", "федеративные штаты микронезии", "палау",
   "гуам", "северные марианские острова", "американское самоа", "французская полинезия",
   "новая каледония", "уоллис и футуна", "токелау", "ниуэ",
   "острова кука", "питкэрн", "антарктида"]

/-- The `i`-flagged hasTravelKeywords test of isPublicChannelByName: the source
applies the regular expression to `chatTitle.toLowerCase()`. -/
def travelKeywordTest (t : String) : Bool := matchesAny travelKeywordList (lowerString t)

/-- The hasFlag test of isPublicChannelByName: the title is scanned for any of
the listed flag-emoji pairs (no case folding is involved). -/
def hasFlagTest (t : String) : Bool := matchesAny flagEmojiList t

/-- isPublicChannelByName (source lines 75-88).  The guard `if (!chatTitle)
return false` makes both an absent title and the empty string yield false. -/
def isPublicChannelByName : Option String → Bool
  | none => false
  | some t =>
    if t = "" then false
    else
      let hasFlag := hasFlagTest t
      let hasChannelKeywords := channelKeywordTest t
      let hasTravelKeywords := travelKeywordTest t
      hasFlag || hasChannelKeywords || hasTravelKeywords

/-- JavaScript truthiness of the optional title (undefined and "" are falsy). -/
def titleTruthy : Option String → Bool
  | none => false
  | some t => t ≠ ""

/-- JavaScript truthiness of `this.currentUserId` (null and 0 are falsy). -/
def userIdTruthy : Option Int → Bool
  | none => false
  | some v => v ≠ 0

/-- The source guard `chat.participants_count && chat.participants_count > 2`
(an absent count and a zero count are falsy). -/
def pcMoreThanTwo : Option Int → Bool
  | none => false
  | some n => n ≠ 0 && n > 2

/-- The source guard `message && message.from_id && message.from_id._ ===
'peerChannel'`. -/
def fromIdIsPeerChannel (m : Message) : Bool :=
  match m.from_id with
  | some (Peer.peerChannel _) => true
  | _ => false

/-- The source guard `chat.title && this.isPublicChannelByName(chat.title)`. -/
def titlePublicMatch (t : Option String) : Bool :=
  titleTruthy t && isPublicChannelByName t

/-- The source guard `chat.title && GROUP_PATTERNS.test(chat.title)`. -/
def titleGroupMatch : Option String → Bool
  | none => false
  | some t => t ≠ "" && groupKeywordTest t

/-- The source guard `chat.title && CHANNEL_PATTERNS.test(chat.title)`. -/
def titleChannelMatch : Option String → Bool
  | none => false
  | some t => t ≠ "" && channelKeywordTest t

/-- The source guard `chat && chat._ === 'user' && (chat as any).bot` applied
to the possibly-absent resolved chat. -/
def chatBotUser : Option Chat → Bool
  | some c => c.kind == "user" && c.bot
  | none => false

/-- The source guard `chat && chat.title && this.isPublicChannelByName(chat.title)`. -/
def chatTitlePublic : Option Chat → Bool
  | some c => titlePublicMatch c.title
  | none => false

/-- The source guard `chat && chat.title && GROUP_PATTERNS.test(chat.title)`. -/
def chatTitleGroup : Option Chat → Bool
  | some c => titleGroupMatch c.title
  | none => false

/-- The source guard `chat && chat.title && CHANNEL_PATTERNS.test(chat.title)`. -/
def chatTitleChannel : Option Chat → Bool
  | some c => titleChannelMatch c.title
  | none => false

/-- Lookup in the classification cache (`chatTypeCache.has` / `.get`). -/
def cacheLookup : List (Int × ChatType) → Int → Option ChatType
  | [], _ => none
  | (k, v) :: rest, key => if k = key then some v else cacheLookup rest key

/-- Insertion into the classification cache (`chatTypeCache.set`).  The source
only inserts after a miss of the same key, so prepending models `Map.set`. -/
def cacheInsert (cache : List (Int × ChatType)) (key : Int) (v : ChatType) :
    List (Int × ChatType) :=
  (key, v) :: cache

/-- Cache-miss computation of determineChatType (source lines 103-149): the
value assigned to `chatType` before it is stored.  Every branch of the source
either returns early after caching or falls through to the final caching, so
the method factors into this value computation plus the memoisation below. -/
def determineChatTypeValue (chat : Chat) (message : Message) : ChatType :=
  if titlePublicMatch chat.title then ChatType.NEWS
  else if titleGroupMatch chat.title then ChatType.DISCUSSION
  else if chat.kind == "user" then
    (if chat.bot then ChatType.NEWS else ChatType.PERSONAL)
  else if chat.kind == "chat" && chat.participants_count == some 2 then
    ChatType.PERSONAL
  else if chat.kind == "channel" || chat.kind == "channelFull"
      || fromIdIsPeerChannel message then ChatType.NEWS
  else if chat.kind == "chat" || chat.kind == "chatFull"
      || pcMoreThanTwo chat.participants_count then ChatType.DISCUSSION
  else ChatType.UNKNOWN

/-- determineChatType (source lines 96-154), memoised by chat id: a hit
returns the cached value unchanged; a miss computes the value and stores it. -/
def determineChatType (st : StoreState) (chat : Chat) (message : Message) :
    ChatType × StoreState :=
  match cacheLookup st.chatTypeCache chat.id with
  | some t => (t, st)
  | none =>
    let chatType := determineChatTypeValue chat message
    (chatType, { st with chatTypeCache := cacheInsert st.chatTypeCache chat.id chatType })

/-- The `user_id` of a user-kind `from_id`, otherwise null (source lines
190-192 and 396-398). -/
def fromUserIdOf (message : Message) : Option Int :=
  match message.from_id with
  | some (Peer.peerUser f) => some f
  | _ => none

/-- isPersonalMessage (source lines 161-215). -/
def isPersonalMessage (st : StoreState) (message : Message) : Bool × StoreState :=
  if !userIdTruthy st.currentUserId then (false, st)
  else
    match message.peer_id with
    | none => (false, st)
    | some (Peer.peerChat _) => (false, st)
    | some (Peer.peerChannel _) => (false, st)
    | some (Peer.peerUser toUserId) =>
      let chat := message.peerId
      if chatBotUser chat then (false, st)
      else if chatTitlePublic chat then (false, st)
      else
        let fromUserId := fromUserIdOf message
        let isCurrentUserInvolved :=
          fromUserId == st.currentUserId || some toUserId == st.currentUserId
        if !isCurrentUserInvolved then (false, st)
        else
          match chat with
          | some c =>
            let r := determineChatType st c message
            (r.fst == ChatType.PERSONAL, r.snd)
          | none => (true, st)

/-- Reciprocity check of verifyMessageCategory (source lines 396-411): the
sender id or the addressee user id must equal the current user id. -/
def verifyReciprocity (st : StoreState) (message : Message) (p : Peer) : Bool :=
  let fromUserId := fromUserIdOf message
  let toUserId : Option Int :=
    match p with
    | Peer.peerUser u => some u
    | _ => none
  fromUserId == st.currentUserId || toUserId == st.currentUserId

/-- verifyMessageCategory (source lines 376-420): extra checks for the
Personal category (the reciprocity check only runs when a current user id is
truthy), then a comparison of the memoised chat type with the category. -/
def verifyMessageCategory (st : StoreState) (message : Message) (category : ChatType) :
    Bool × StoreState :=
  match message.peer_id with
  | none => (false, st)
  | some p =>
    match message.peerId with
    | none => (false, st)
    | some chat =>
      if category == ChatType.PERSONAL && (chat.kind == "user" && chat.bot) then (false, st)
      else if category == ChatType.PERSONAL && titlePublicMatch chat.title then (false, st)
      else if category == ChatType.PERSONAL && userIdTruthy st.currentUserId
          && !verifyReciprocity st message p then (false, st)
      else
        let r := determineChatType st chat message
        (r.fst == category, r.snd)

/-- Stateful embedding of `Array.prototype.filter` with a predicate that reads
and writes the service state (the getters' filters call the memoising
methods): elements are tested left to right. -/
def filterSt (p : StoreState → Message → Bool × StoreState) (st : StoreState) :
    List Message → List Message × StoreState
  | [] => ([], st)
  | m :: ms =>
    let r := p st m
    let rest := filterSt p r.snd ms
    (if r.fst then m :: rest.fst else rest.fst, rest.snd)

/-- Body of the filter of getPersonalMessages (source lines 233-251). -/
def personalFilterStep (st : StoreState) (message : Message) : Bool × StoreState :=
  let r := isPersonalMessage st message
  if !r.fst then (false, r.snd)
  else
    match message.peerId with
    | some chat =>
      if titlePublicMatch chat.title then (false, r.snd)
      else verifyMessageCategory r.snd message ChatType.PERSONAL
    | none => (true, r.snd)

/-- Recomputation path of getPersonalMessages (source lines 232-260): filter
the ledger, store the result under the 'personal' key, and stamp the epoch
with `Date.now()` (passed as `now`) if it is still zero. -/
def computePersonalMessages (st : StoreState) (now : Nat) : List Message × StoreState :=
  let r := filterSt personalFilterStep st st.messages
  let st1 : StoreState := { r.snd with personalMessagesCache := some r.fst }
  let st2 := if st1.lastCategorization = 0 then { st1 with lastCategorization := now } else st1
  (r.fst, st2)

/-- getPersonalMessages (source lines 221-261): warn and return the empty
array when the current user id is falsy; otherwise serve the cache when it
holds the key and the epoch is positive, else recompute. -/
def getPersonalMessages (st : StoreState) (now : Nat) : List Message × StoreState :=
  if !userIdTruthy st.currentUserId then
    ([], { st with consoleWarnings := st.consoleWarnings ++ ["Current user ID is not set"] })
  else
    match st.personalMessagesCache with
    | some cached =>
      if st.lastCategorization > 0 then (cached, st) else computePersonalMessages st now
    | none => computePersonalMessages st now

/-- Body of the filter of getNewsMessages (source lines 273-297). -/
def newsFilterStep (st : StoreState) (message : Message) : Bool × StoreState :=
  match message.peer_id with
  | none => (false, st)
  | some p =>
    let chat := message.peerId
    if chatTitlePublic chat then (true, st)
    else if (match p with
             | Peer.peerChannel _ => true
             | Peer.peerUser _ => chatBotUser chat
             | Peer.peerChat _ => false) then
      verifyMessageCategory st message ChatType.NEWS
    else if chatTitleChannel chat then (true, st)
    else (false, st)

/-- Recomputation path of getNewsMessages (source lines 273-306). -/
def computeNewsMessages (st : StoreState) (now : Nat) : List Message × StoreState :=
  let r := filterSt newsFilterStep st st.messages
  let st1 : StoreState := { r.snd with newsMessagesCache := some r.fst }
  let st2 := if st1.lastCategorization = 0 then { st1 with lastCategorization := now } else st1
  (r.fst, st2)

/-- getNewsMessages (source lines 267-307). -/
def getNewsMessages (st : StoreState) (now : Nat) : List Message × StoreState :=
  match st.newsMessagesCache with
  | some cached =>
    if st.lastCategorization > 0 then (cached, st) else computeNewsMessages st now
  | none => computeNewsMessages st now

/-- Body of the filter of getDiscussionMessages (source lines 319-341): the
guard is `message.peer_id._ === 'peerChat' || message.peer_id._ === 'peerChannel'`
and every other peer kind falls through to `return false`. -/
def discussionFilterStep (st : StoreState) (message : Message) : Bool × StoreState :=
  match message.peer_id with
  | none => (false, st)
  | some p =>
    if (match p with
        | Peer.peerChat _ => true
        | Peer.peerChannel _ => true
        | Peer.peerUser _ => false) then
      let chat := message.peerId
      if chatTitlePublic chat then (false, st)
      else if chatTitleGroup chat then (true, st)
      else verifyMessageCategory st message ChatType.DISCUSSION
    else (false, st)

/-- Recomputation path of getDiscussionMessages (source lines 319-350). -/
def computeDiscussionMessages (st : StoreState) (now : Nat) : List Message × StoreState :=
  let r := filterSt discussionFilterStep st st.messages
  let st1 : StoreState := { r.snd with discussionMessagesCache := some r.fst }
  let st2 := if st1.lastCategorization = 0 then { st1 with lastCategorization := now } else st1
  (r.fst, st2)

/-- getDiscussionMessages (source lines 313-351). -/
def getDiscussionMessages (st : StoreState) (now : Nat) : List Message × StoreState :=
  match st.discussionMessagesCache with
  | some cached =>
    if st.lastCategorization > 0 then (cached, st) else computeDiscussionMessages st now
  | none => computeDiscussionMessages st now

/-- getGroupedMessagesByCategory (source lines 357-368): the three getters in
order, sharing the evolving state. -/
def getGroupedMessagesByCategory (st : StoreState) (now : Nat) :
    GroupedMessages × StoreState :=
  let p := getPersonalMessages st now
  let n := getNewsMessages p.snd now
  let d := getDiscussionMessages n.snd now
  ({ personal := p.fst, news := n.fst, discussion := d.fst }, d.snd)

/-- clearCaches (source lines 44-50). -/
def clearCaches (st : StoreState) : StoreState :=
  { st with personalMessagesCache := none, newsMessagesCache := none,
            discussionMessagesCache := none, chatTypeCache := [],
            lastCategorization := 0 }

/-- setCurrentUserId (source lines 35-39): store the id, then clear caches. -/
def setCurrentUserId (st : StoreState) (userId : Int) : StoreState :=
  clearCaches { st with currentUserId := some userId }

/-- addMessages (source lines 56-59): append the batch, then clear caches. -/
def addMessages (st : StoreState) (batch : List Message) : StoreState :=
  clearCaches { st with messages := st.messages ++ batch }

/-- recategorizeAllMessages (source lines 64-68): clear caches, then stamp the
epoch with `Date.now()` (passed as `now`). -/
def recategorizeAllMessages (st : StoreState) (now : Nat) : StoreState :=
  { clearCaches st with lastCategorization := now }

/-- Operations of the service that are not cache-clearing events (every public
method except setCurrentUserId, clearCaches, addMessages and
recategorizeAllMessages), used to express "subsequent call with no intervening
cache-clearing event". -/
inductive ReadOp where
  | detType (chat : Chat) (message : Message)
  | isPers (message : Message)
  | verifyCat (message : Message) (category : ChatType)
  | getPers (now : Nat)
  | getNews (now : Nat)
  | getDisc (now : Nat)
  | getGrouped (now : Nat)
deriving Repr

/-- State effect of one non-clearing operation. -/
def runReadOp (st : StoreState) : ReadOp → StoreState
  | ReadOp.detType c m => (determineChatType st c m).snd
  | ReadOp.isPers m => (isPersonalMessage st m).snd
  | ReadOp.verifyCat m cat => (verifyMessageCategory st m cat).snd
  | ReadOp.getPers now => (getPersonalMessages st now).snd
  | ReadOp.getNews now => (getNewsMessages st now).snd
  | ReadOp.getDisc now => (getDiscussionMessages st now).snd
  | ReadOp.getGrouped now => (getGroupedMessagesByCategory st now).snd

/-- State effect of a sequence of non-clearing operations. -/
def runReadOps (st : StoreState) (ops : List ReadOp) : StoreState :=
  ops.foldl runReadOp st

/-! ## Relations, invariants and evidence predicates used by the proofs -/

/-- Entries of the classification cache survive into a later state. -/
def CachePreserved (st st' : StoreState) : Prop :=
  ∀ k v, cacheLookup st.chatTypeCache k = some v →
    cacheLookup st'.chatTypeCache k = some v

/-- State change allowed to the non-clearing read operations: every field is
unchanged except the classification cache, which may only gain entries, and
the warning log. -/
def ReadStep (st st' : StoreState) : Prop :=
  st'.messages = st.messages ∧ st'.currentUserId = st.currentUserId ∧
  st'.personalMessagesCache = st.personalMessagesCache ∧
  st'.newsMessagesCache = st.newsMessagesCache ∧
  st'.discussionMessagesCache = st.discussionMessagesCache ∧
  st'.lastCategorization = st.lastCategorization ∧
  CachePreserved st st'

/-- Every cached classification of a chat id that occurs as the id of some
ledger message's resolved chat is a value the cache-miss computation can
produce for that chat. -/
def CacheOK (L : List Message) (cache : List (Int × ChatType)) : Prop :=
  ∀ k v, cacheLookup cache k = some v →
    ∀ m c, m ∈ L → m.peerId = some c → c.id = k →
      ∃ m0, v = determineChatTypeValue c m0

/-- No two ledger messages resolve different chat objects with the same id. -/
def ChatConsistent (L : List Message) : Prop :=
  ∀ m1, m1 ∈ L → ∀ m2, m2 ∈ L → ∀ c1 c2,
    m1.peerId = some c1 → m2.peerId = some c2 → c1.id = c2.id → c1 = c2

/-- Relation maintained along a category pass: a read step whose cache growth
keeps the coherence invariant. -/
def PassRel (L : List Message) (s s' : StoreState) : Prop :=
  ReadStep s s' ∧ (CacheOK L s.chatTypeCache → CacheOK L s'.chatTypeCache)

/-- Facts forced by `isPersonalMessage` returning true: a user-kind peer
reference and, whenever the resolved chat is present, neither the bot guard
nor the public-title guard fired. -/
def PersonalShape (m : Message) : Prop :=
  (∃ uid, m.peer_id = some (Peer.peerUser uid)) ∧
  chatBotUser m.peerId = false ∧ chatTitlePublic m.peerId = false

/-- Facts forced by admission to the news pass, relative to a state's
classification cache. -/
def NewsEv (m : Message) (st : StoreState) : Prop :=
  chatTitlePublic m.peerId = true ∨
  (((∃ k, m.peer_id = some (Peer.peerChannel k)) ∨
    ((∃ u, m.peer_id = some (Peer.peerUser u)) ∧ chatBotUser m.peerId = true)) ∧
   ∃ c, m.peerId = some c ∧
     cacheLookup st.chatTypeCache c.id = some ChatType.NEWS) ∨
  chatTitleChannel m.peerId = true

/-- Facts forced by admission to the discussion pass, relative to a state's
classification cache. -/
def DiscussionEv (m : Message) (st : StoreState) : Prop :=
  (∃ k, m.peer_id = some (Peer.peerChat k) ∨ m.peer_id = some (Peer.peerChannel k)) ∧
  ∃ c, m.peerId = some c ∧ chatTitlePublic m.peerId = false ∧
    (chatTitleGroup m.peerId = true ∨
     cacheLookup st.chatTypeCache c.id = some ChatType.DISCUSSION)

/-! ## Concrete instances -/

/-- Fresh service state (all fields as constructed). -/
def initialStore : StoreState := {}

/-- Channel chat with id 7 and no title. -/
def mChanA : Message :=
  { id := 1, peer_id := some (Peer.peerChannel 7),
    peerId := some { kind := "channel", id := 7 } }

/-- Channel-peer message resolving a DIFFERENT chat object with the same id 7,
titled so that the group lexicon matches and the news lexicon does not. -/
def mChanB : Message :=
  { id := 2, peer_id := some (Peer.peerChannel 7),
    peerId := some { kind := "channel", id := 7, title := some "group chat" } }

/-- Ledger holding the two conflicting chat-id-7 messages. -/
def stCounter : StoreState := { messages := [mChanA, mChanB] }

/-- Personal-looking message for the C1 witness ledger. -/
def mWitUser : Message :=
  { id := 10, peer_id := some (Peer.peerUser 201),
    peerId := some { kind := "user", id := 201 },
    from_id := some (Peer.peerUser 201) }

/-- News-looking message for the C1 witness ledger. -/
def mWitChan : Message :=
  { id := 11, peer_id := some (Peer.peerChannel 77),
    peerId := some { kind := "channel", id := 77, title := some "daily news" } }

/-- Consistent two-message ledger with a viewer identity. -/
def stWitness : StoreState :=
  { messages := [mWitUser, mWitChan], currentUserId := some 12345 }

/-- Two-participant group chat with id 5. -/
def chatC2 : Chat := { kind := "chat", id := 5, participants_count := some 2 }

/-- Message whose peer is the two-participant group chat. -/
def msgC2 : Message :=
  { id := 3, peer_id := some (Peer.peerChat 5), peerId := some chatC2 }

/-- Store after setting a viewer identity and appending the group message. -/
def stC2 : StoreState := addMessages (setCurrentUserId initialStore 12345) [msgC2]

/-- Group chat with five participants and no title. -/
def chatC4 : Chat := { kind := "chat", id := 9, participants_count := some 5 }

/-- Message whose sender reference is a channel-kind peer. -/
def msgC4 : Message := { id := 4, from_id := some (Peer.peerChannel 3) }

/-- Message with no sender reference. -/
def msgC4b : Message := { id := 13 }

/-- Channel-peer message whose resolved chat is absent. -/
def msgC5 : Message := { id := 5, peer_id := some (Peer.peerChannel 11) }

/-- Ledger holding only the chatless channel-peer message. -/
def stC5 : StoreState := { messages := [msgC5] }

/-- Channel chat with id 11. -/
def chatC5 : Chat := { kind := "channel", id := 11 }

/-- Channel-peer message resolving the channel chat. -/
def msgC5w : Message :=
  { id := 6, peer_id := some (Peer.peerChannel 11), peerId := some chatC5 }

/-- Ledger holding only the well-formed channel message. -/
def stC5w : StoreState := { messages := [msgC5w] }

/-- Non-bot user chat with id 3. -/
def chatC6a : Chat := { kind := "user", id := 3 }

/-- Arbitrary message for the first classification call. -/
def msgC6a : Message := { id := 7 }

/-- State produced by classifying chatC6a from the fresh store. -/
def stC6after : StoreState := { chatTypeCache := [(3, ChatType.PERSONAL)] }

/-- Channel chat sharing id 3 with chatC6a. -/
def chatC6b : Chat := { kind := "channel", id := 3 }

/-- Arbitrary message for the second classification call. -/
def msgC6b : Message := { id := 8 }

/-- Small store with a viewer identity for the idempotence witness. -/
def stC7 : StoreState := { messages := [mChanA], currentUserId := some 1 }

/-- Non-bot user chat with id 201. -/
def chatC10 : Chat := { kind := "user", id := 201 }

/-- User-peer message from sender 500 to user 201 (neither is a viewer). -/
def msgC10 : Message :=
  { id := 12, peer_id := some (Peer.peerUser 201), peerId := some chatC10,
    from_id := some (Peer.peerUser 500) }

/-! ## State-effect lemmas -/

theorem cachePreserved_refl (st : StoreState) : CachePreserved st st :=
  fun _ _ h => h

theorem cachePreserved_trans {a b c : StoreState}
    (h1 : CachePreserved a b) (h2 : CachePreserved b c) : CachePreserved a c :=
  fun k v h => h2 k v (h1 k v h)

theorem readStep_refl (st : StoreState) : ReadStep st st :=
  ⟨rfl, rfl, rfl, rfl, rfl, rfl, cachePreserved_refl st⟩

theorem readStep_trans {a b c : StoreState}
    (h1 : ReadStep a b) (h2 : ReadStep b c) : ReadStep a c := by
  obtain ⟨m1, u1, p1, n1, d1, l1, c1⟩ := h1
  obtain ⟨m2, u2, p2, n2, d2, l2, c2⟩ := h2
  exact ⟨m2.trans m1, u2.trans u1, p2.trans p1, n2.trans n1, d2.trans d1,
    l2.trans l1, cachePreserved_trans c1 c2⟩

theorem cacheLookup_insert_self (cache : List (Int × ChatType)) (k : Int) (v : ChatType) :
    cacheLookup (cacheInsert cache k v) k = some v := by
  simp [cacheInsert, cacheLookup]

theorem determineChatType_fst_hit {st : StoreState} {c : Chat} {m : Message} {t : ChatType}
    (h : cacheLookup st.chatTypeCache c.id = some t) :
    determineChatType st c m = (t, st) := by
  unfold determineChatType
  rw [h]

theorem determineChatType_fst_miss {st : StoreState} {c : Chat} {m : Message}
    (h : cacheLookup st.chatTypeCache c.id = none) :
    determineChatType st c m =
      (determineChatTypeValue c m,
       { st with chatTypeCache := cacheInsert st.chatTypeCache c.id (determineChatTypeValue c m) }) := by
  unfold determineChatType
  rw [h]

theorem determineChatType_lookup_self (st : StoreState) (c : Chat) (m : Message) :
    cacheLookup (determineChatType st c m).snd.chatTypeCache c.id =
      some (determineChatType st c m).fst := by
  cases h : cacheLookup st.chatTypeCache c.id with
  | some t => rw [determineChatType_fst_hit h]; exact h
  | none => rw [determineChatType_fst_miss h]; exact cacheLookup_insert_self _ _ _

theorem determineChatType_readStep (st : StoreState) (c : Chat) (m : Message) :
    ReadStep st (determineChatType st c m).snd := by
  cases h : cacheLookup st.chatTypeCache c.id with
  | some t => rw [determineChatType_fst_hit h]; exact readStep_refl st
  | none =>
    rw [determineChatType_fst_miss h]
    refine ⟨rfl, rfl, rfl, rfl, rfl, rfl, ?_⟩
    intro k v hv
    simp only [cacheInsert, cacheLookup]
    by_cases hk : c.id = k
    · rw [hk] at h; rw [h] at hv; exact absurd hv (by simp)
    · simpa [hk] using hv

/-! ## Generic lemmas about the stateful filter -/

theorem filterSt_subset (p : StoreState → Message → Bool × StoreState) :
    ∀ (l : List Message) (st : StoreState) (m : Message),
      m ∈ (filterSt p st l).fst → m ∈ l := by
  intro l
  induction l with
  | nil => intro st m h; simp [filterSt] at h
  | cons a as ih =>
    intro st m h
    simp only [filterSt] at h
    by_cases hb : (p st a).fst
    · rw [if_pos hb] at h
      rcases List.mem_cons.mp h with h1 | h2
      · exact h1 ▸ List.mem_cons_self a as
      · exact List.mem_cons_of_mem a (ih _ m h2)
    · rw [if_neg hb] at h
      exact List.mem_cons_of_mem a (ih _ m h)

theorem filterSt_rel (p : StoreState → Message → Bool × StoreState)
    (R : StoreState → StoreState → Prop)
    (hrefl : ∀ s, R s s)
    (htrans : ∀ a b c, R a b → R b c → R a c) :
    ∀ (l : List Message) (st : StoreState),
      (∀ s m', m' ∈ l → R s (p s m').snd) →
      R st (filterSt p st l).snd := by
  intro l
  induction l with
  | nil => intro st _; exact hrefl st
  | cons a as ih =>
    intro st hstep
    simp only [filterSt]
    exact htrans _ _ _ (hstep st a (List.mem_cons_self a as))
      (ih _ (fun s m' hm' => hstep s m' (List.mem_cons_of_mem a hm')))

theorem filterSt_mem_pred (p : StoreState → Message → Bool × StoreState) :
    ∀ (l : List Message) (st : StoreState) (m : Message),
      m ∈ (filterSt p st l).fst → ∃ s, (p s m).fst = true := by
  intro l
  induction l with
  | nil => intro st m h; simp [filterSt] at h
  | cons a as ih =>
    intro st m h
    simp only [filterSt] at h
    by_cases hb : (p st a).fst
    · rw [if_pos hb] at h
      rcases List.mem_cons.mp h with h1 | h2
      · exact ⟨st, h1 ▸ hb⟩
      · exact ih _ m h2
    · rw [if_neg hb] at h
      exact ih _ m h

theorem filterSt_mem_ev (p : StoreState → Message → Bool × StoreState)
    (R : StoreState → StoreState → Prop) (Ev : StoreState → Prop) (m : Message)
    (hrefl : ∀ s, R s s)
    (htrans : ∀ a b c, R a b → R b c → R a c)
    (hmono : ∀ s s', R s s' → Ev s → Ev s') :
    ∀ (l : List Message) (st : StoreState),
      (∀ s m', m' ∈ l → R s (p s m').snd) →
      (∀ s, (p s m).fst = true → Ev (p s m).snd) →
      m ∈ (filterSt p st l).fst → Ev (filterSt p st l).snd := by
  intro l
  induction l with
  | nil => intro st _ _ h; simp [filterSt] at h
  | cons a as ih =>
    intro st hstep hev h
    simp only [filterSt] at h ⊢
    have hstep' : ∀ s m', m' ∈ as → R s (p s m').snd :=
      fun s m' hm' => hstep s m' (List.mem_cons_of_mem a hm')
    by_cases hb : (p st a).fst
    · rw [if_pos hb] at h
      rcases List.mem_cons.mp h with h1 | h2
      · subst h1
        exact hmono _ _ (filterSt_rel p R hrefl htrans as (p st m).snd hstep') (hev st hb)
      · exact ih _ hstep' hev h2
    · rw [if_neg hb] at h
      exact ih _ hstep' hev h

theorem filterSt_mem_of (p : StoreState → Message → Bool × StoreState)
    (R : StoreState → StoreState → Prop) (m : Message) (st0 : StoreState)
    (htrans : ∀ a b c, R a b → R b c → R a c) :
    ∀ (l : List Message) (st : StoreState),
      (∀ s m', m' ∈ l → R s (p s m').snd) →
      R st0 st →
      m ∈ l →
      (∀ s, R st0 s → (p s m).fst = true) →
      m ∈ (filterSt p st l).fst := by
  intro l
  induction l with
  | nil => intro st _ _ h _; simp at h
  | cons a as ih =>
    intro st hstep hst0 hm hp
    simp only [filterSt]
    have hstep' : ∀ s m', m' ∈ as → R s (p s m').snd :=
      fun s m' hm' => hstep s m' (List.mem_cons_of_mem a hm')
    rcases List.mem_cons.mp hm with h1 | h2
    · subst h1
      rw [if_pos (hp st hst0)]
      exact List.mem_cons_self m _
    · have hnext : R st0 (p st a).snd :=
        htrans _ _ _ hst0 (hstep st a (List.mem_cons_self a as))
      have := ih (p st a).snd hstep' hnext h2 hp
      by_cases hb : (p st a).fst
      · rw [if_pos hb]; exact List.mem_cons_of_mem a this
      · rw [if_neg hb]; exact this

/-! ## Branch analyses of the classification methods -/

theorem isPersonalMessage_snd_cases (st : StoreState) (m : Message) :
    (isPersonalMessage st m).snd = st ∨
    ∃ c, m.peerId = some c ∧
      (isPersonalMessage st m).snd = (determineChatType st c m).snd := by
  unfold isPersonalMessage
  dsimp only
  repeat' split
  all_goals first
    | exact Or.inl rfl
    | exact Or.inr ⟨_, by assumption, rfl⟩

theorem verifyMessageCategory_snd_cases (st : StoreState) (m : Message) (cat : ChatType) :
    (verifyMessageCategory st m cat).snd = st ∨
    ∃ c, m.peerId = some c ∧
      (verifyMessageCategory st m cat).snd = (determineChatType st c m).snd := by
  unfold verifyMessageCategory
  dsimp only
  repeat' split
  all_goals first
    | exact Or.inl rfl
    | exact Or.inr ⟨_, by assumption, rfl⟩

theorem verifyMessageCategory_eq (st : StoreState) (m : Message) (cat : ChatType) :
    verifyMessageCategory st m cat = (false, st) ∨
    ∃ p c, m.peer_id = some p ∧ m.peerId = some c ∧
      verifyMessageCategory st m cat =
        ((determineChatType st c m).fst == cat, (determineChatType st c m).snd) := by
  unfold verifyMessageCategory
  dsimp only
  repeat' split
  all_goals first
    | exact Or.inl rfl
    | exact Or.inr ⟨_, _, by assumption, by assumption, rfl⟩

theorem verifyMessageCategory_fst_imp {st : StoreState} {m : Message} {cat : ChatType}
    (h : (verifyMessageCategory st m cat).fst = true) :
    ∃ p c, m.peer_id = some p ∧ m.peerId = some c ∧
      (verifyMessageCategory st m cat).snd = (determineChatType st c m).snd ∧
      (determineChatType st c m).fst = cat := by
  rcases verifyMessageCategory_eq st m cat with heq | ⟨p, c, hp, hc, heq⟩
  · rw [heq] at h; exact absurd h (by simp)
  · rw [heq] at h
    exact ⟨p, c, hp, hc, by rw [heq], by simpa using h⟩

theorem personalFilterStep_snd_cases (st : StoreState) (m : Message) :
    (personalFilterStep st m).snd = (isPersonalMessage st m).snd ∨
    (personalFilterStep st m).snd =
      (verifyMessageCategory (isPersonalMessage st m).snd m ChatType.PERSONAL).snd := by
  unfold personalFilterStep
  dsimp only
  repeat' split
  all_goals first
    | exact Or.inl rfl
    | exact Or.inr rfl

theorem newsFilterStep_snd_cases (st : StoreState) (m : Message) :
    (newsFilterStep st m).snd = st ∨
    (newsFilterStep st m).snd = (verifyMessageCategory st m ChatType.NEWS).snd := by
  unfold newsFilterStep
  dsimp only
  repeat' split
  all_goals first
    | exact Or.inl rfl
    | exact Or.inr rfl

theorem discussionFilterStep_snd_cases (st : StoreState) (m : Message) :
    (discussionFilterStep st m).snd = st ∨
    (discussionFilterStep st m).snd =
      (verifyMessageCategory st m ChatType.DISCUSSION).snd := by
  unfold discussionFilterStep
  dsimp only
  repeat' split
  all_goals first
    | exact Or.inl rfl
    | exact Or.inr rfl

theorem isPersonalMessage_readStep (st : StoreState) (m : Message) :
    ReadStep st (isPersonalMessage st m).snd := by
  rcases isPersonalMessage_snd_cases st m with h | ⟨c, _, h⟩
  · rw [h]; exact readStep_refl st
  · rw [h]; exact determineChatType_readStep st c m

theorem verifyMessageCategory_readStep (st : StoreState) (m : Message) (cat : ChatType) :
    ReadStep st (verifyMessageCategory st m cat).snd := by
  rcases verifyMessageCategory_snd_cases st m cat with h | ⟨c, _, h⟩
  · rw [h]; exact readStep_refl st
  · rw [h]; exact determineChatType_readStep st c m

theorem personalFilterStep_readStep (st : StoreState) (m : Message) :
    ReadStep st (personalFilterStep st m).snd := by
  rcases personalFilterStep_snd_cases st m with h | h
  · rw [h]; exact isPersonalMessage_readStep st m
  · rw [h]
    exact readStep_trans (isPersonalMessage_readStep st m)
      (verifyMessageCategory_readStep _ m ChatType.PERSONAL)

theorem newsFilterStep_readStep (st : StoreState) (m : Message) :
    ReadStep st (newsFilterStep st m).snd := by
  rcases newsFilterStep_snd_cases st m with h | h
  · rw [h]; exact readStep_refl st
  · rw [h]; exact verifyMessageCategory_readStep st m ChatType.NEWS

theorem discussionFilterStep_readStep (st : StoreState) (m : Message) :
    ReadStep st (discussionFilterStep st m).snd := by
  rcases discussionFilterStep_snd_cases st m with h | h
  · rw [h]; exact readStep_refl st
  · rw [h]; exact verifyMessageCategory_readStep st m ChatType.DISCUSSION

/-! ## Coherence of the classification cache with the ledger -/

theorem cacheOK_nil (L : List Message) : CacheOK L [] := by
  intro k v hv
  simp [cacheLookup] at hv

theorem determineChatType_cacheOK {L : List Message} {st : StoreState} {c : Chat}
    {m : Message} (hcons : ChatConsistent L) (hm : m ∈ L) (hc : m.peerId = some c)
    (hok : CacheOK L st.chatTypeCache) :
    CacheOK L (determineChatType st c m).snd.chatTypeCache := by
  cases h : cacheLookup st.chatTypeCache c.id with
  | some t => rw [determineChatType_fst_hit h]; exact hok
  | none =>
    rw [determineChatType_fst_miss h]
    intro k v hv m' c' hm' hc' hk
    simp only [cacheInsert, cacheLookup] at hv
    by_cases hkc : c.id = k
    · rw [if_pos hkc] at hv
      have hcc : c' = c := hcons m' hm' m hm c' c hc' hc (by rw [hk, ← hkc])
      exact ⟨m, by rw [hcc, ← Option.some_inj.mp hv]⟩
    · rw [if_neg hkc] at hv
      exact hok k v hv m' c' hm' hc' hk

theorem passRel_refl (L : List Message) (s : StoreState) : PassRel L s s :=
  ⟨readStep_refl s, id⟩

theorem passRel_trans {L : List Message} {a b c : StoreState}
    (h1 : PassRel L a b) (h2 : PassRel L b c) : PassRel L a c :=
  ⟨readStep_trans h1.1 h2.1, fun h => h2.2 (h1.2 h)⟩

theorem isPersonalMessage_passRel {L : List Message} {st : StoreState} {m : Message}
    (hcons : ChatConsistent L) (hm : m ∈ L) :
    PassRel L st (isPersonalMessage st m).snd := by
  rcases isPersonalMessage_snd_cases st m with h | ⟨c, hc, h⟩
  · rw [h]; exact passRel_refl L st
  · rw [h]
    exact ⟨determineChatType_readStep st c m,
      fun hok => determineChatType_cacheOK hcons hm hc hok⟩

theorem verifyMessageCategory_passRel {L : List Message} {st : StoreState} {m : Message}
    {cat : ChatType} (hcons : ChatConsistent L) (hm : m ∈ L) :
    PassRel L st (verifyMessageCategory st m cat).snd := by
  rcases verifyMessageCategory_snd_cases st m cat with h | ⟨c, hc, h⟩
  · rw [h]; exact passRel_refl L st
  · rw [h]
    exact ⟨determineChatType_readStep st c m,
      fun hok => determineChatType_cacheOK hcons hm hc hok⟩

theorem personalFilterStep_passRel {L : List Message} {st : StoreState} {m : Message}
    (hcons : ChatConsistent L) (hm : m ∈ L) :
    PassRel L st (personalFilterStep st m).snd := by
  rcases personalFilterStep_snd_cases st m with h | h
  · rw [h]; exact isPersonalMessage_passRel hcons hm
  · rw [h]
    exact passRel_trans (isPersonalMessage_passRel hcons hm)
      (verifyMessageCategory_passRel hcons hm)

theorem newsFilterStep_passRel {L : List Message} {st : StoreState} {m : Message}
    (hcons : ChatConsistent L) (hm : m ∈ L) :
    PassRel L st (newsFilterStep st m).snd := by
  rcases newsFilterStep_snd_cases st m with h | h
  · rw [h]; exact passRel_refl L st
  · rw [h]; exact verifyMessageCategory_passRel hcons hm

theorem discussionFilterStep_passRel {L : List Message} {st : StoreState} {m : Message}
    (hcons : ChatConsistent L) (hm : m ∈ L) :
    PassRel L st (discussionFilterStep st m).snd := by
  rcases discussionFilterStep_snd_cases st m with h | h
  · rw [h]; exact passRel_refl L st
  · rw [h]; exact verifyMessageCategory_passRel hcons hm

/-! ## Evidence carried by membership in each category pass -/

theorem isPersonalMessage_fst_cases (st : StoreState) (m : Message) :
    (isPersonalMessage st m).fst = false ∨ PersonalShape m := by
  unfold isPersonalMessage PersonalShape
  dsimp only
  repeat' split
  all_goals try exact Or.inl rfl
  all_goals refine Or.inr ⟨⟨_, by assumption⟩, ?_, ?_⟩ <;> simp_all

theorem personalFilterStep_fst_imp {st : StoreState} {m : Message}
    (h : (personalFilterStep st m).fst = true) : PersonalShape m := by
  have hbase : (isPersonalMessage st m).fst = true := by
    unfold personalFilterStep at h
    dsimp only at h
    split at h
    · simp at h
    · simpa using (by assumption : ¬(!(isPersonalMessage st m).fst) = true)
  rcases isPersonalMessage_fst_cases st m with h0 | hs
  · rw [h0] at hbase; exact absurd hbase (by simp)
  · exact hs

theorem newsFilterStep_fst_cases (st : StoreState) (m : Message) :
    (newsFilterStep st m).fst = false ∨
    chatTitlePublic m.peerId = true ∨
    chatTitleChannel m.peerId = true ∨
    (((∃ k, m.peer_id = some (Peer.peerChannel k)) ∨
      ((∃ u, m.peer_id = some (Peer.peerUser u)) ∧ chatBotUser m.peerId = true)) ∧
     newsFilterStep st m = verifyMessageCategory st m ChatType.NEWS) := by
  unfold newsFilterStep
  dsimp only
  split
  · exact Or.inl rfl
  · rename_i p hp
    split
    · rename_i h1
      exact Or.inr (Or.inl h1)
    · split
      · rename_i h1 h2
        refine Or.inr (Or.inr (Or.inr ⟨?_, rfl⟩))
        cases p with
        | peerUser u => exact Or.inr ⟨⟨u, hp⟩, by simpa using h2⟩
        | peerChat k => simp at h2
        | peerChannel k => exact Or.inl ⟨k, hp⟩
      · split
        · rename_i h3
          exact Or.inr (Or.inr (Or.inl h3))
        · exact Or.inl rfl

theorem discussionFilterStep_fst_cases (st : StoreState) (m : Message) :
    (discussionFilterStep st m).fst = false ∨
    ((∃ k, m.peer_id = some (Peer.peerChat k) ∨ m.peer_id = some (Peer.peerChannel k)) ∧
     chatTitlePublic m.peerId = false ∧
     (chatTitleGroup m.peerId = true ∨
      discussionFilterStep st m = verifyMessageCategory st m ChatType.DISCUSSION)) := by
  unfold discussionFilterStep
  dsimp only
  split
  · exact Or.inl rfl
  · rename_i p hp
    split
    · rename_i hcond
      have hpeer : ∃ k, m.peer_id = some (Peer.peerChat k) ∨
          m.peer_id = some (Peer.peerChannel k) := by
        cases p with
        | peerUser u => simp at hcond
        | peerChat k => exact ⟨k, Or.inl hp⟩
        | peerChannel k => exact ⟨k, Or.inr hp⟩
      split
      · exact Or.inl rfl
      · rename_i hpub
        split
        · rename_i hgrp
          exact Or.inr ⟨hpeer, by simpa using hpub, Or.inl hgrp⟩
        · exact Or.inr ⟨hpeer, by simpa using hpub, Or.inr rfl⟩
    · exact Or.inl rfl

theorem newsFilterStep_ev {st : StoreState} {m : Message}
    (h : (newsFilterStep st m).fst = true) :
    NewsEv m (newsFilterStep st m).snd := by
  rcases newsFilterStep_fst_cases st m with h0 | h1 | h2 | ⟨hshape, heq⟩
  · rw [h0] at h; exact absurd h (by simp)
  · exact Or.inl h1
  · exact Or.inr (Or.inr h2)
  · rw [heq] at h
    obtain ⟨p, c, hp, hc, hsnd, hfst⟩ := verifyMessageCategory_fst_imp h
    refine Or.inr (Or.inl ⟨hshape, c, hc, ?_⟩)
    rw [heq, hsnd]
    have hlk := determineChatType_lookup_self st c m
    rw [hfst] at hlk
    exact hlk

theorem discussionFilterStep_ev {st : StoreState} {m : Message}
    (h : (discussionFilterStep st m).fst = true) :
    DiscussionEv m (discussionFilterStep st m).snd := by
  rcases discussionFilterStep_fst_cases st m with h0 | ⟨hpeer, hpub, hrest⟩
  · rw [h0] at h; exact absurd h (by simp)
  · rcases hrest with hgrp | heq
    · have hcsome : ∃ c, m.peerId = some c := by
        cases hc : m.peerId with
        | none => rw [hc] at hgrp; simp [chatTitleGroup] at hgrp
        | some c => exact ⟨c, rfl⟩
      obtain ⟨c, hc⟩ := hcsome
      exact ⟨hpeer, c, hc, hpub, Or.inl hgrp⟩
    · rw [heq] at h
      obtain ⟨p, c, hp, hc, hsnd, hfst⟩ := verifyMessageCategory_fst_imp h
      refine ⟨hpeer, c, hc, hpub, Or.inr ?_⟩
      rw [heq, hsnd]
      have hlk := determineChatType_lookup_self st c m
      rw [hfst] at hlk
      exact hlk

theorem newsEv_mono {m : Message} {s s' : StoreState}
    (hpres : CachePreserved s s') (h : NewsEv m s) : NewsEv m s' := by
  rcases h with h1 | ⟨hshape, c, hc, hlk⟩ | h3
  · exact Or.inl h1
  · exact Or.inr (Or.inl ⟨hshape, c, hc, hpres c.id ChatType.NEWS hlk⟩)
  · exact Or.inr (Or.inr h3)

theorem discussionEv_mono {m : Message} {s s' : StoreState}
    (hpres : CachePreserved s s') (h : DiscussionEv m s) : DiscussionEv m s' := by
  obtain ⟨hpeer, c, hc, hpub, hrest⟩ := h
  refine ⟨hpeer, c, hc, hpub, ?_⟩
  rcases hrest with hgrp | hlk
  · exact Or.inl hgrp
  · exact Or.inr (hpres c.id ChatType.DISCUSSION hlk)

/-! ## Mutual exclusion of the evidences -/

theorem titleChannelMatch_imp_public {t : Option String}
    (h : titleChannelMatch t = true) : titlePublicMatch t = true := by
  cases t with
  | none => simp [titleChannelMatch] at h
  | some s =>
    simp only [titleChannelMatch, Bool.and_eq_true, decide_eq_true_eq] at h
    obtain ⟨hne, hkw⟩ := h
    simp [titlePublicMatch, titleTruthy, isPublicChannelByName, hne, hkw]

theorem chatTitleChannel_imp_public {o : Option Chat}
    (h : chatTitleChannel o = true) : chatTitlePublic o = true := by
  cases o with
  | none => simp [chatTitleChannel] at h
  | some c =>
    simp only [chatTitleChannel] at h
    simpa [chatTitlePublic] using titleChannelMatch_imp_public h

theorem determineChatTypeValue_of_group {c : Chat}
    (hpub : titlePublicMatch c.title = false) (hgrp : titleGroupMatch c.title = true) :
    ∀ m0, determineChatTypeValue c m0 = ChatType.DISCUSSION := by
  intro m0
  unfold determineChatTypeValue
  rw [hpub, hgrp]
  rfl

theorem personalShape_news_exclusive {m : Message} {s : StoreState}
    (hP : PersonalShape m) (hN : NewsEv m s) : False := by
  obtain ⟨⟨uid, hpu⟩, hbot, hpub⟩ := hP
  rcases hN with h1 | ⟨hshape, c, hc, hlk⟩ | h3
  · rw [hpub] at h1; exact absurd h1 (by simp)
  · rcases hshape with ⟨k, hpc⟩ | ⟨⟨u, _⟩, hbot2⟩
    · rw [hpu] at hpc; simp at hpc
    · rw [hbot] at hbot2; exact absurd hbot2 (by simp)
  · have := chatTitleChannel_imp_public h3
    rw [hpub] at this; exact absurd this (by simp)

theorem personalShape_discussion_exclusive {m : Message} {s : StoreState}
    (hP : PersonalShape m) (hD : DiscussionEv m s) : False := by
  obtain ⟨⟨uid, hpu⟩, _, _⟩ := hP
  obtain ⟨⟨k, hpk⟩, _⟩ := hD
  rcases hpk with hpk | hpk <;> (rw [hpu] at hpk; simp at hpk)

theorem news_discussion_exclusive {L : List Message} {m : Message} {s : StoreState}
    (hok : CacheOK L s.chatTypeCache) (hm : m ∈ L)
    (hN : NewsEv m s) (hD : DiscussionEv m s) : False := by
  obtain ⟨⟨k, hpk⟩, c, hc, hpub, hrest⟩ := hD
  rcases hN with h1 | ⟨hshape, c', hc', hlk⟩ | h3
  · rw [hpub] at h1; exact absurd h1 (by simp)
  · have hcc : c' = c := by
      rw [hc] at hc'; exact (Option.some_inj.mp hc').symm
    subst hcc
    rcases hshape with ⟨k2, hch⟩ | ⟨⟨u, hpu⟩, _⟩
    · rcases hrest with hgrp | hlkD
      · obtain ⟨m0, hv⟩ := hok c'.id ChatType.NEWS hlk m c' hm hc rfl
        have hgm : titleGroupMatch c'.title = true := by
          rw [hc] at hgrp
          simpa [chatTitleGroup] using hgrp
        have hpm : titlePublicMatch c'.title = false := by
          rw [hc] at hpub
          simpa [chatTitlePublic] using hpub
        rw [determineChatTypeValue_of_group hpm hgm m0] at hv
        exact absurd hv (by simp)
      · rw [hlk] at hlkD
        exact absurd (Option.some_inj.mp hlkD) (by simp)
    · rcases hpk with hpk | hpk <;> (rw [hpu] at hpk; simp at hpk)
  · have := chatTitleChannel_imp_public h3
    rw [hpub] at this; exact absurd this (by simp)

/-! ## Effects of the three getters -/

theorem cachePreserved_of_eq {s s' : StoreState}
    (h : s'.chatTypeCache = s.chatTypeCache) : CachePreserved s s' := by
  intro k v hv; rw [h]; exact hv

theorem getPersonalMessages_pass (st : StoreState) (now : Nat) (L : List Message)
    (hL : st.messages = L) (hcons : ChatConsistent L) :
    (getPersonalMessages st now).snd.messages = L ∧
    (getPersonalMessages st now).snd.currentUserId = st.currentUserId ∧
    (getPersonalMessages st now).snd.newsMessagesCache = st.newsMessagesCache ∧
    (getPersonalMessages st now).snd.discussionMessagesCache = st.discussionMessagesCache ∧
    CachePreserved st (getPersonalMessages st now).snd ∧
    (CacheOK L st.chatTypeCache →
      CacheOK L (getPersonalMessages st now).snd.chatTypeCache) := by
  have hfold : PassRel L st (filterSt personalFilterStep st st.messages).snd := by
    refine filterSt_rel personalFilterStep (PassRel L) (passRel_refl L)
      (fun a b c h1 h2 => passRel_trans h1 h2) st.messages st ?_
    intro s m' hm'
    exact personalFilterStep_passRel hcons (hL ▸ hm')
  obtain ⟨⟨hm, hu, hp, hn, hd, hl, hcp⟩, hok⟩ := hfold
  unfold getPersonalMessages computePersonalMessages
  split
  · exact ⟨hL, rfl, rfl, rfl, cachePreserved_of_eq rfl, id⟩
  · split
    · split
      · exact ⟨hL, rfl, rfl, rfl, cachePreserved_of_eq rfl, id⟩
      · dsimp only
        split <;>
          exact ⟨hm.trans hL, hu, hn, hd, hcp, hok⟩
    · dsimp only
      split <;>
        exact ⟨hm.trans hL, hu, hn, hd, hcp, hok⟩

theorem getNewsMessages_pass (st : StoreState) (now : Nat) (L : List Message)
    (hL : st.messages = L) (hcons : ChatConsistent L) :
    (getNewsMessages st now).snd.messages = L ∧
    (getNewsMessages st now).snd.currentUserId = st.currentUserId ∧
    (getNewsMessages st now).snd.personalMessagesCache = st.personalMessagesCache ∧
    (getNewsMessages st now).snd.discussionMessagesCache = st.discussionMessagesCache ∧
    CachePreserved st (getNewsMessages st now).snd ∧
    (CacheOK L st.chatTypeCache →
      CacheOK L (getNewsMessages st now).snd.chatTypeCache) := by
  have hfold : PassRel L st (filterSt newsFilterStep st st.messages).snd := by
    refine filterSt_rel newsFilterStep (PassRel L) (passRel_refl L)
      (fun a b c h1 h2 => passRel_trans h1 h2) st.messages st ?_
    intro s m' hm'
    exact newsFilterStep_passRel hcons (hL ▸ hm')
  obtain ⟨⟨hm, hu, hp, hn, hd, hl, hcp⟩, hok⟩ := hfold
  unfold getNewsMessages computeNewsMessages
  split
  · split
    · exact ⟨hL, rfl, rfl, rfl, cachePreserved_of_eq rfl, id⟩
    · dsimp only
      split <;>
        exact ⟨hm.trans hL, hu, hp, hd, hcp, hok⟩
  · dsimp only
    split <;>
      exact ⟨hm.trans hL, hu, hp, hd, hcp, hok⟩

theorem getDiscussionMessages_pass (st : StoreState) (now : Nat) (L : List Message)
    (hL : st.messages = L) (hcons : ChatConsistent L) :
    (getDiscussionMessages st now).snd.messages = L ∧
    (getDiscussionMessages st now).snd.currentUserId = st.currentUserId ∧
    (getDiscussionMessages st now).snd.personalMessagesCache = st.personalMessagesCache ∧
    (getDiscussionMessages st now).snd.newsMessagesCache = st.newsMessagesCache ∧
    CachePreserved st (getDiscussionMessages st now).snd ∧
    (CacheOK L st.chatTypeCache →
      CacheOK L (getDiscussionMessages st now).snd.chatTypeCache) := by
  have hfold : PassRel L st (filterSt discussionFilterStep st st.messages).snd := by
    refine filterSt_rel discussionFilterStep (PassRel L) (passRel_refl L)
      (fun a b c h1 h2 => passRel_trans h1 h2) st.messages st ?_
    intro s m' hm'
    exact discussionFilterStep_passRel hcons (hL ▸ hm')
  obtain ⟨⟨hm, hu, hp, hn, hd, hl, hcp⟩, hok⟩ := hfold
  unfold getDiscussionMessages computeDiscussionMessages
  split
  · split
    · exact ⟨hL, rfl, rfl, rfl, cachePreserved_of_eq rfl, id⟩
    · dsimp only
      split <;>
        exact ⟨hm.trans hL, hu, hp, hn, hcp, hok⟩
  · dsimp only
    split <;>
      exact ⟨hm.trans hL, hu, hp, hn, hcp, hok⟩

/-! ## Membership characterisations of the getters' results -/

theorem getPersonalMessages_mem {st : StoreState} {now : Nat} {m : Message}
    (hpc : st.personalMessagesCache = none)
    (hm : m ∈ (getPersonalMessages st now).fst) :
    PersonalShape m ∧ m ∈ st.messages := by
  have hfst : (getPersonalMessages st now).fst = [] ∨
      (getPersonalMessages st now).fst = (filterSt personalFilterStep st st.messages).fst := by
    unfold getPersonalMessages computePersonalMessages
    split
    · exact Or.inl rfl
    · rw [hpc]
      dsimp only
      exact Or.inr rfl
  rcases hfst with hfst | hfst
  · rw [hfst] at hm; simp at hm
  · rw [hfst] at hm
    obtain ⟨s, hs⟩ := filterSt_mem_pred personalFilterStep st.messages st m hm
    exact ⟨personalFilterStep_fst_imp hs, filterSt_subset personalFilterStep st.messages st m hm⟩

theorem getNewsMessages_mem {st : StoreState} {now : Nat} {m : Message} {L : List Message}
    (hL : st.messages = L) (hcons : ChatConsistent L)
    (hnc : st.newsMessagesCache = none)
    (hm : m ∈ (getNewsMessages st now).fst) :
    NewsEv m (getNewsMessages st now).snd ∧ m ∈ L := by
  have hfst : (getNewsMessages st now).fst = (filterSt newsFilterStep st st.messages).fst := by
    unfold getNewsMessages computeNewsMessages
    rw [hnc]
  have hsndpres : CachePreserved (filterSt newsFilterStep st st.messages).snd
      (getNewsMessages st now).snd := by
    refine cachePreserved_of_eq ?_
    unfold getNewsMessages computeNewsMessages
    rw [hnc]
    dsimp only
    split <;> rfl
  rw [hfst] at hm
  have hev : NewsEv m (filterSt newsFilterStep st st.messages).snd := by
    refine filterSt_mem_ev newsFilterStep (PassRel L) (NewsEv m) m (passRel_refl L)
      (fun a b c h1 h2 => passRel_trans h1 h2) ?_ st.messages st ?_ ?_ hm
    · intro s s' hr hev
      exact newsEv_mono hr.1.2.2.2.2.2.2 hev
    · intro s m' hm'
      exact newsFilterStep_passRel hcons (hL ▸ hm')
    · intro s hs
      exact newsFilterStep_ev hs
  exact ⟨newsEv_mono hsndpres hev,
    hL ▸ filterSt_subset newsFilterStep st.messages st m hm⟩

theorem getDiscussionMessages_mem {st : StoreState} {now : Nat} {m : Message} {L : List Message}
    (hL : st.messages = L) (hcons : ChatConsistent L)
    (hdc : st.discussionMessagesCache = none)
    (hm : m ∈ (getDiscussionMessages st now).fst) :
    DiscussionEv m (getDiscussionMessages st now).snd ∧ m ∈ L := by
  have hfst : (getDiscussionMessages st now).fst =
      (filterSt discussionFilterStep st st.messages).fst := by
    unfold getDiscussionMessages computeDiscussionMessages
    rw [hdc]
  have hsndpres : CachePreserved (filterSt discussionFilterStep st st.messages).snd
      (getDiscussionMessages st now).snd := by
    refine cachePreserved_of_eq ?_
    unfold getDiscussionMessages computeDiscussionMessages
    rw [hdc]
    dsimp only
    split <;> rfl
  rw [hfst] at hm
  have hev : DiscussionEv m (filterSt discussionFilterStep st st.messages).snd := by
    refine filterSt_mem_ev discussionFilterStep (PassRel L) (DiscussionEv m) m (passRel_refl L)
      (fun a b c h1 h2 => passRel_trans h1 h2) ?_ st.messages st ?_ ?_ hm
    · intro s s' hr hev
      exact discussionEv_mono hr.1.2.2.2.2.2.2 hev
    · intro s m' hm'
      exact discussionFilterStep_passRel hcons (hL ▸ hm')
    · intro s hs
      exact discussionFilterStep_ev hs
  exact ⟨discussionEv_mono hsndpres hev,
    hL ▸ filterSt_subset discussionFilterStep st.messages st m hm⟩

/-! ## Grouped-retrieval disjointness -/

theorem grouped_personal_eq (st : StoreState) (now : Nat) :
    (getGroupedMessagesByCategory st now).fst.personal =
      (getPersonalMessages st now).fst := rfl

theorem grouped_news_eq (st : StoreState) (now : Nat) :
    (getGroupedMessagesByCategory st now).fst.news =
      (getNewsMessages (getPersonalMessages st now).snd now).fst := rfl

theorem grouped_discussion_eq (st : StoreState) (now : Nat) :
    (getGroupedMessagesByCategory st now).fst.discussion =
      (getDiscussionMessages (getNewsMessages (getPersonalMessages st now).snd now).snd now).fst := rfl

/-- Claim C1, amended.  From a state with freshly cleared caches (as every
mutation leaves them), and a ledger in which no two messages resolve
different chat objects with the same chat id, the three sequences of
getGroupedMessagesByCategory() are pairwise disjoint and every member is an
element of the ledger. -/
theorem claim_C1 (st : StoreState) (now : Nat) (m : Message)
    (hpc : st.personalMessagesCache = none)
    (hnc : st.newsMessagesCache = none)
    (hdc : st.discussionMessagesCache = none)
    (hct : st.chatTypeCache = [])
    (hcons : ChatConsistent st.messages) :
    (m ∈ (getGroupedMessagesByCategory st now).fst.personal →
      m ∉ (getGroupedMessagesByCategory st now).fst.news ∧
      m ∉ (getGroupedMessagesByCategory st now).fst.discussion) ∧
    (m ∈ (getGroupedMessagesByCategory st now).fst.news →
      m ∉ (getGroupedMessagesByCategory st now).fst.discussion) ∧
    ((m ∈ (getGroupedMessagesByCategory st now).fst.personal ∨
      m ∈ (getGroupedMessagesByCategory st now).fst.news ∨
      m ∈ (getGroupedMessagesByCategory st now).fst.discussion) →
      m ∈ st.messages) := by
  rw [grouped_personal_eq, grouped_news_eq, grouped_discussion_eq]
  obtain ⟨h1m, h1u, h1n, h1d, h1cp, h1ok⟩ :=
    getPersonalMessages_pass st now st.messages rfl hcons
  obtain ⟨h2m, h2u, h2p, h2d, h2cp, h2ok⟩ :=
    getNewsMessages_pass (getPersonalMessages st now).snd now st.messages h1m hcons
  obtain ⟨h3m, h3u, h3p, h3n, h3cp, h3ok⟩ :=
    getDiscussionMessages_pass (getNewsMessages (getPersonalMessages st now).snd now).snd
      now st.messages h2m hcons
  have hok0 : CacheOK st.messages st.chatTypeCache := by
    rw [hct]; exact cacheOK_nil st.messages
  have hok3 : CacheOK st.messages
      (getDiscussionMessages (getNewsMessages (getPersonalMessages st now).snd now).snd
        now).snd.chatTypeCache :=
    h3ok (h2ok (h1ok hok0))
  have hnc1 : (getPersonalMessages st now).snd.newsMessagesCache = none := by
    rw [h1n, hnc]
  have hdc2 : (getNewsMessages (getPersonalMessages st now).snd now).snd.discussionMessagesCache
      = none := by
    rw [h2d, h1d, hdc]
  refine ⟨?_, ?_, ?_⟩
  · intro hp
    obtain ⟨hshape, _⟩ := getPersonalMessages_mem hpc hp
    constructor
    · intro hn'
      obtain ⟨hNev, _⟩ := getNewsMessages_mem h1m hcons hnc1 hn'
      exact personalShape_news_exclusive hshape hNev
    · intro hd'
      obtain ⟨hDev, _⟩ := getDiscussionMessages_mem h2m hcons hdc2 hd'
      exact personalShape_discussion_exclusive hshape hDev
  · intro hn' hd'
    obtain ⟨hNev, hmem⟩ := getNewsMessages_mem h1m hcons hnc1 hn'
    obtain ⟨hDev, _⟩ := getDiscussionMessages_mem h2m hcons hdc2 hd'
    exact news_discussion_exclusive hok3 hmem (newsEv_mono h3cp hNev) hDev
  · intro hmem
    rcases hmem with hp | hn' | hd'
    · exact (getPersonalMessages_mem hpc hp).2
    · exact (getNewsMessages_mem h1m hcons hnc1 hn').2
    · exact (getDiscussionMessages_mem h2m hcons hdc2 hd').2

/-! ## Further helper lemmas -/

/-- Decidable check equivalent to ChatConsistent on a concrete ledger. -/
theorem chatConsistent_of_check {L : List Message}
    (h : (L.all fun m1 => L.all fun m2 =>
      match m1.peerId, m2.peerId with
      | some c1, some c2 => c1.id != c2.id || c1 == c2
      | _, _ => true) = true) : ChatConsistent L := by
  intro m1 h1 m2 h2 c1 c2 hc1 hc2 hid
  have ha := (List.all_eq_true.mp h) m1 h1
  have hb := (List.all_eq_true.mp ha) m2 h2
  rw [hc1, hc2] at hb
  simp only [Bool.or_eq_true, bne_iff_ne, ne_eq, beq_iff_eq] at hb
  rcases hb with hne | heq
  · exact absurd hid hne
  · exact heq

theorem determineChatTypeValue_of_channel {c : Chat}
    (hpub : titlePublicMatch c.title = false) (hgrp : titleGroupMatch c.title = false)
    (hkind : c.kind = "channel") :
    ∀ m0, determineChatTypeValue c m0 = ChatType.NEWS := by
  intro m0
  have h1 : (c.kind == "user") = false := by rw [hkind]; decide
  have h2 : (c.kind == "chat") = false := by rw [hkind]; decide
  have h3 : (c.kind == "channel") = true := by rw [hkind]; decide
  unfold determineChatTypeValue
  simp [hpub, hgrp, h1, h2, h3]

theorem determineChatTypeValue_of_pair {c : Chat}
    (hpub : titlePublicMatch c.title = false) (hgrp : titleGroupMatch c.title = false)
    (hkind : c.kind = "chat") (hpc2 : c.participants_count = some 2) :
    ∀ m0, determineChatTypeValue c m0 = ChatType.PERSONAL := by
  intro m0
  have h1 : (c.kind == "user") = false := by rw [hkind]; decide
  have h2 : (c.kind == "chat") = true := by rw [hkind]; decide
  have h3 : (c.participants_count == some 2) = true := by rw [hpc2]; decide
  unfold determineChatTypeValue
  simp [hpub, hgrp, h1, h2, h3]

theorem verifyMessageCategory_fst_of {st : StoreState} {m : Message} {cat : ChatType}
    {p : Peer} {c : Chat} (hcat : (cat == ChatType.PERSONAL) = false)
    (hp : m.peer_id = some p) (hc : m.peerId = some c) :
    (verifyMessageCategory st m cat).fst = ((determineChatType st c m).fst == cat) := by
  unfold verifyMessageCategory
  rw [hp, hc]
  dsimp only
  simp [hcat]

theorem getNewsMessages_fst_eq {st : StoreState} {now : Nat}
    (hnc : st.newsMessagesCache = none) :
    (getNewsMessages st now).fst = (filterSt newsFilterStep st st.messages).fst := by
  unfold getNewsMessages computeNewsMessages
  rw [hnc]

/-! ## Cache preservation by every non-clearing operation -/

theorem getPersonalMessages_cachePreserved (st : StoreState) (now : Nat) :
    CachePreserved st (getPersonalMessages st now).snd := by
  have hfold : ReadStep st (filterSt personalFilterStep st st.messages).snd :=
    filterSt_rel personalFilterStep ReadStep readStep_refl
      (fun a b c h1 h2 => readStep_trans h1 h2) st.messages st
      (fun s m' _ => personalFilterStep_readStep s m')
  unfold getPersonalMessages computePersonalMessages
  split
  · exact cachePreserved_of_eq rfl
  · split
    · split
      · exact cachePreserved_of_eq rfl
      · dsimp only
        split <;> exact hfold.2.2.2.2.2.2
    · dsimp only
      split <;> exact hfold.2.2.2.2.2.2

theorem getNewsMessages_cachePreserved (st : StoreState) (now : Nat) :
    CachePreserved st (getNewsMessages st now).snd := by
  have hfold : ReadStep st (filterSt newsFilterStep st st.messages).snd :=
    filterSt_rel newsFilterStep ReadStep readStep_refl
      (fun a b c h1 h2 => readStep_trans h1 h2) st.messages st
      (fun s m' _ => newsFilterStep_readStep s m')
  unfold getNewsMessages computeNewsMessages
  split
  · split
    · exact cachePreserved_of_eq rfl
    · dsimp only
      split <;> exact hfold.2.2.2.2.2.2
  · dsimp only
    split <;> exact hfold.2.2.2.2.2.2

theorem getDiscussionMessages_cachePreserved (st : StoreState) (now : Nat) :
    CachePreserved st (getDiscussionMessages st now).snd := by
  have hfold : ReadStep st (filterSt discussionFilterStep st st.messages).snd :=
    filterSt_rel discussionFilterStep ReadStep readStep_refl
      (fun a b c h1 h2 => readStep_trans h1 h2) st.messages st
      (fun s m' _ => discussionFilterStep_readStep s m')
  unfold getDiscussionMessages computeDiscussionMessages
  split
  · split
    · exact cachePreserved_of_eq rfl
    · dsimp only
      split <;> exact hfold.2.2.2.2.2.2
  · dsimp only
    split <;> exact hfold.2.2.2.2.2.2

theorem runReadOp_cachePreserved (st : StoreState) (op : ReadOp) :
    CachePreserved st (runReadOp st op) := by
  cases op with
  | detType c m => exact (determineChatType_readStep st c m).2.2.2.2.2.2
  | isPers m => exact (isPersonalMessage_readStep st m).2.2.2.2.2.2
  | verifyCat m cat => exact (verifyMessageCategory_readStep st m cat).2.2.2.2.2.2
  | getPers now => exact getPersonalMessages_cachePreserved st now
  | getNews now => exact getNewsMessages_cachePreserved st now
  | getDisc now => exact getDiscussionMessages_cachePreserved st now
  | getGrouped now =>
    exact cachePreserved_trans (getPersonalMessages_cachePreserved st now)
      (cachePreserved_trans (getNewsMessages_cachePreserved _ now)
        (getDiscussionMessages_cachePreserved _ now))

theorem runReadOps_cachePreserved (ops : List ReadOp) :
    ∀ st : StoreState, CachePreserved st (runReadOps st ops) := by
  induction ops with
  | nil => intro st; exact cachePreserved_refl st
  | cons op rest ih =>
    intro st
    exact cachePreserved_trans (runReadOp_cachePreserved st op) (ih (runReadOp st op))

/-! ## Idempotence of the getters -/

theorem getNewsMessages_post (st : StoreState) (now : Nat) (hnow : 0 < now) :
    (getNewsMessages st now).snd.newsMessagesCache = some (getNewsMessages st now).fst ∧
    0 < (getNewsMessages st now).snd.lastCategorization ∧
    (getNewsMessages st now).snd.currentUserId = st.currentUserId := by
  have hfold : ReadStep st (filterSt newsFilterStep st st.messages).snd :=
    filterSt_rel newsFilterStep ReadStep readStep_refl
      (fun a b c h1 h2 => readStep_trans h1 h2) st.messages st
      (fun s m' _ => newsFilterStep_readStep s m')
  unfold getNewsMessages computeNewsMessages
  split
  · rename_i l hcache
    split
    · rename_i hpos
      exact ⟨hcache, hpos, rfl⟩
    · dsimp only
      split
      · exact ⟨rfl, hnow, hfold.2.1⟩
      · rename_i hne
        exact ⟨rfl, Nat.pos_of_ne_zero hne, hfold.2.1⟩
  · dsimp only
    split
    · exact ⟨rfl, hnow, hfold.2.1⟩
    · rename_i hne
      exact ⟨rfl, Nat.pos_of_ne_zero hne, hfold.2.1⟩

theorem getNewsMessages_idem (st : StoreState) (now1 now2 : Nat) (hnow : 0 < now1) :
    (getNewsMessages (getNewsMessages st now1).snd now2).fst =
      (getNewsMessages st now1).fst := by
  obtain ⟨hc, hl, _⟩ := getNewsMessages_post st now1 hnow
  set q := getNewsMessages st now1 with hq
  unfold getNewsMessages
  rw [hc]
  simp [hl]

theorem getDiscussionMessages_post (st : StoreState) (now : Nat) (hnow : 0 < now) :
    (getDiscussionMessages st now).snd.discussionMessagesCache =
      some (getDiscussionMessages st now).fst ∧
    0 < (getDiscussionMessages st now).snd.lastCategorization ∧
    (getDiscussionMessages st now).snd.currentUserId = st.currentUserId := by
  have hfold : ReadStep st (filterSt discussionFilterStep st st.messages).snd :=
    filterSt_rel discussionFilterStep ReadStep readStep_refl
      (fun a b c h1 h2 => readStep_trans h1 h2) st.messages st
      (fun s m' _ => discussionFilterStep_readStep s m')
  unfold getDiscussionMessages computeDiscussionMessages
  split
  · rename_i l hcache
    split
    · rename_i hpos
      exact ⟨hcache, hpos, rfl⟩
    · dsimp only
      split
      · exact ⟨rfl, hnow, hfold.2.1⟩
      · rename_i hne
        exact ⟨rfl, Nat.pos_of_ne_zero hne, hfold.2.1⟩
  · dsimp only
    split
    · exact ⟨rfl, hnow, hfold.2.1⟩
    · rename_i hne
      exact ⟨rfl, Nat.pos_of_ne_zero hne, hfold.2.1⟩

theorem getDiscussionMessages_idem (st : StoreState) (now1 now2 : Nat) (hnow : 0 < now1) :
    (getDiscussionMessages (getDiscussionMessages st now1).snd now2).fst =
      (getDiscussionMessages st now1).fst := by
  obtain ⟨hc, hl, _⟩ := getDiscussionMessages_post st now1 hnow
  set q := getDiscussionMessages st now1 with hq
  unfold getDiscussionMessages
  rw [hc]
  simp [hl]

theorem getPersonalMessages_post (st : StoreState) (now : Nat) (hnow : 0 < now)
    (hu : userIdTruthy st.currentUserId = true) :
    (getPersonalMessages st now).snd.personalMessagesCache =
      some (getPersonalMessages st now).fst ∧
    0 < (getPersonalMessages st now).snd.lastCategorization ∧
    (getPersonalMessages st now).snd.currentUserId = st.currentUserId := by
  have hfold : ReadStep st (filterSt personalFilterStep st st.messages).snd :=
    filterSt_rel personalFilterStep ReadStep readStep_refl
      (fun a b c h1 h2 => readStep_trans h1 h2) st.messages st
      (fun s m' _ => personalFilterStep_readStep s m')
  unfold getPersonalMessages computePersonalMessages
  split
  · rename_i hguard
    rw [hu] at hguard
    simp at hguard
  · split
    · rename_i l hcache
      split
      · rename_i hpos
        exact ⟨hcache, hpos, rfl⟩
      · dsimp only
        split
        · exact ⟨rfl, hnow, hfold.2.1⟩
        · rename_i hne
          exact ⟨rfl, Nat.pos_of_ne_zero hne, hfold.2.1⟩
    · dsimp only
      split
      · exact ⟨rfl, hnow, hfold.2.1⟩
      · rename_i hne
        exact ⟨rfl, Nat.pos_of_ne_zero hne, hfold.2.1⟩

theorem getPersonalMessages_idem (st : StoreState) (now1 now2 : Nat) (hnow : 0 < now1) :
    (getPersonalMessages (getPersonalMessages st now1).snd now2).fst =
      (getPersonalMessages st now1).fst := by
  cases hu : userIdTruthy st.currentUserId with
  | false =>
    have h1 : (getPersonalMessages st now1).fst = [] ∧
        (getPersonalMessages st now1).snd.currentUserId = st.currentUserId := by
      unfold getPersonalMessages
      split
      · exact ⟨rfl, rfl⟩
      · rename_i hguard
        rw [hu] at hguard
        simp at hguard
    set q := getPersonalMessages st now1 with hq
    obtain ⟨hfst, hcu⟩ := h1
    have h2 : (getPersonalMessages q.snd now2).fst = [] := by
      unfold getPersonalMessages
      split
      · rfl
      · rename_i hguard
        rw [hcu, hu] at hguard
        simp at hguard
    rw [h2, hfst]
  | true =>
    obtain ⟨hc, hl, hcu⟩ := getPersonalMessages_post st now1 hnow hu
    set q := getPersonalMessages st now1 with hq
    unfold getPersonalMessages
    split
    · rename_i hguard
      rw [hcu, hu] at hguard
      simp at hguard
    · rw [hc]

/-! ## Claim theorems -/

/-- Claim C2, amended.  A message whose peer reference is of chat kind with a
two-participant chat and no lexicon-matching title is NOT placed in the
personal sequence after being appended with a viewer identity set (only
user-kind peer references are admitted to personal), even though
determineChatType classifies its chat as Personal. -/
theorem claim_C2 (st : StoreState) (u : Int) (m : Message) (c : Chat) (k : Int) (now : Nat)
    (hp : m.peer_id = some (Peer.peerChat k))
    (_hc : m.peerId = some c)
    (hkind : c.kind = "chat")
    (hpc2 : c.participants_count = some 2)
    (hpub : titlePublicMatch c.title = false)
    (hgrp : titleGroupMatch c.title = false) :
    m ∉ (getPersonalMessages (addMessages (setCurrentUserId st u) [m]) now).fst ∧
    (determineChatType (addMessages (setCurrentUserId st u) [m]) c m).fst
      = ChatType.PERSONAL := by
  constructor
  · intro hmem
    have hpcache : (addMessages (setCurrentUserId st u) [m]).personalMessagesCache = none := rfl
    obtain ⟨⟨uid, hpu⟩, _, _⟩ := (getPersonalMessages_mem hpcache hmem).1
    rw [hp] at hpu
    simp at hpu
  · have hct : cacheLookup (addMessages (setCurrentUserId st u) [m]).chatTypeCache c.id
        = none := rfl
    rw [determineChatType_fst_miss hct]
    exact determineChatTypeValue_of_pair hpub hgrp hkind hpc2 m

/-- Claim C3, amended.  verifyMessageCategory never changes the ledger, the
viewer identity, the freshness epoch, or the three result caches, and never
changes an existing entry of the classification cache; it can however ADD
entries to the classification cache (through the memoisation inside
determineChatType), so it is not fully cache-read-only. -/
theorem claim_C3 (st : StoreState) (m : Message) (cat : ChatType) :
    (verifyMessageCategory st m cat).snd.messages = st.messages ∧
    (verifyMessageCategory st m cat).snd.currentUserId = st.currentUserId ∧
    (verifyMessageCategory st m cat).snd.personalMessagesCache = st.personalMessagesCache ∧
    (verifyMessageCategory st m cat).snd.newsMessagesCache = st.newsMessagesCache ∧
    (verifyMessageCategory st m cat).snd.discussionMessagesCache
      = st.discussionMessagesCache ∧
    (verifyMessageCategory st m cat).snd.lastCategorization = st.lastCategorization ∧
    ∀ k v, cacheLookup st.chatTypeCache k = some v →
      cacheLookup (verifyMessageCategory st m cat).snd.chatTypeCache k = some v :=
  verifyMessageCategory_readStep st m cat

/-- Claim C4, amended.  For a chat of kind 'chat' with more than two
participants and no lexicon-matching title, determineChatType on an empty
classification cache returns Discussion PROVIDED the message's sender
reference is not a channel-kind peer; a channel-kind sender forces News
first. -/
theorem claim_C4 (st : StoreState) (c : Chat) (m : Message) (n : Int)
    (hct : st.chatTypeCache = [])
    (hkind : c.kind = "chat")
    (hpcn : c.participants_count = some n) (hn : 2 < n)
    (hpub : titlePublicMatch c.title = false)
    (hgrp : titleGroupMatch c.title = false)
    (hfrom : fromIdIsPeerChannel m = false) :
    (determineChatType st c m).fst = ChatType.DISCUSSION := by
  have hlk : cacheLookup st.chatTypeCache c.id = none := by rw [hct]; rfl
  rw [determineChatType_fst_miss hlk]
  have h1 : (c.kind == "user") = false := by rw [hkind]; decide
  have h2 : (c.kind == "chat") = true := by rw [hkind]; decide
  have h3 : (c.participants_count == some 2) = false := by
    rw [hpcn]
    simp only [beq_eq_false_iff_ne, ne_eq, Option.some_inj]
    omega
  have h4 : (c.kind == "channel") = false := by rw [hkind]; decide
  have h5 : (c.kind == "channelFull") = false := by rw [hkind]; decide
  unfold determineChatTypeValue
  simp [hpub, hgrp, h1, h2, h3, h4, h5, hfrom]

/-- Claim C5, amended.  A ledger message with a channel-kind peer reference is
included in getNewsMessages() PROVIDED its resolved chat is present, of
channel kind, and has no group-lexicon title (computed from a state with
empty news and classification caches over a ledger with consistent per-id
chat data); a channel-peer message with absent chat data is excluded. -/
theorem claim_C5 (st : StoreState) (now : Nat) (m : Message) (c : Chat) (k : Int)
    (hnc : st.newsMessagesCache = none) (hct : st.chatTypeCache = [])
    (hcons : ChatConsistent st.messages)
    (hm : m ∈ st.messages)
    (hp : m.peer_id = some (Peer.peerChannel k))
    (hc : m.peerId = some c)
    (hkind : c.kind = "channel")
    (hgrp : titleGroupMatch c.title = false) :
    m ∈ (getNewsMessages st now).fst := by
  rw [getNewsMessages_fst_eq hnc]
  have hok0 : CacheOK st.messages st.chatTypeCache := by
    rw [hct]; exact cacheOK_nil st.messages
  refine filterSt_mem_of newsFilterStep (PassRel st.messages) m st
    (fun a b c h1 h2 => passRel_trans h1 h2) st.messages st
    (fun s m' hm' => newsFilterStep_passRel hcons hm') (passRel_refl _ _) hm ?_
  intro s hrel
  have hsok : CacheOK st.messages s.chatTypeCache := hrel.2 hok0
  unfold newsFilterStep
  rw [hp]
  dsimp only
  cases hb : chatTitlePublic m.peerId with
  | true => simp
  | false =>
    have hpubt : titlePublicMatch c.title = false := by
      rw [hc] at hb
      simpa [chatTitlePublic] using hb
    have hval : ∀ m0, determineChatTypeValue c m0 = ChatType.NEWS :=
      determineChatTypeValue_of_channel hpubt hgrp hkind
    have hfst : (verifyMessageCategory s m ChatType.NEWS).fst = true := by
      rw [verifyMessageCategory_fst_of (by decide) hp hc]
      cases hlk : cacheLookup s.chatTypeCache c.id with
      | none =>
        rw [determineChatType_fst_miss hlk]
        simp [hval m]
      | some v =>
        obtain ⟨m0, hv⟩ := hsok c.id v hlk m c hm hc rfl
        rw [determineChatType_fst_hit hlk]
        simp [hv, hval m0]
    simp [hfst]

/-- Claim C6, confirmed.  determineChatType is memoised by chat id: once a
call returns t, every later call with a chat of the same id — through any
sequence of non-clearing operations — returns the same t, regardless of the
chat's other fields or the message argument. -/
theorem claim_C6 (st : StoreState) (c1 : Chat) (m1 : Message) (t : ChatType)
    (st1 : StoreState) (ops : List ReadOp) (c2 : Chat) (m2 : Message)
    (hfirst : determineChatType st c1 m1 = (t, st1))
    (hid : c2.id = c1.id) :
    (determineChatType (runReadOps st1 ops) c2 m2).fst = t := by
  have hlk1 : cacheLookup st1.chatTypeCache c1.id = some t := by
    have h := determineChatType_lookup_self st c1 m1
    rw [hfirst] at h
    exact h
  have hlk2 : cacheLookup (runReadOps st1 ops).chatTypeCache c2.id = some t := by
    rw [hid]
    exact runReadOps_cachePreserved ops st1 c1.id t hlk1
  rw [determineChatType_fst_hit hlk2]

/-- Claim C7, confirmed.  Each getter called twice in a row with no
intervening mutation returns the identical sequence (the first call's
`Date.now()` stamp is positive, as real clock values are). -/
theorem claim_C7 (st : StoreState) (now1 now2 : Nat) (hnow : 0 < now1) :
    (getPersonalMessages (getPersonalMessages st now1).snd now2).fst =
      (getPersonalMessages st now1).fst ∧
    (getNewsMessages (getNewsMessages st now1).snd now2).fst =
      (getNewsMessages st now1).fst ∧
    (getDiscussionMessages (getDiscussionMessages st now1).snd now2).fst =
      (getDiscussionMessages st now1).fst :=
  ⟨getPersonalMessages_idem st now1 now2 hnow,
   getNewsMessages_idem st now1 now2 hnow,
   getDiscussionMessages_idem st now1 now2 hnow⟩

/-- Claim C8, confirmed.  With no viewer identity set, getPersonalMessages
warns and returns the empty sequence whatever the ledger holds (the function
is total, so no exception is possible). -/
theorem claim_C8 (st : StoreState) (now : Nat) (h : st.currentUserId = none) :
    (getPersonalMessages st now).fst = [] ∧
    (getPersonalMessages st now).snd.consoleWarnings =
      st.consoleWarnings ++ ["Current user ID is not set"] ∧
    (getPersonalMessages st now).snd.messages = st.messages := by
  have hfalse : userIdTruthy st.currentUserId = false := by rw [h]; rfl
  unfold getPersonalMessages
  split
  · exact ⟨rfl, rfl, rfl⟩
  · rename_i hguard
    rw [hfalse] at hguard
    simp at hguard

/-- Claim C9, confirmed.  Setting the viewer identity to 0 stores 0, yet the
falsy guard makes getPersonalMessages behave exactly as if no identity were
set: empty result and the same warning. -/
theorem claim_C9 (st : StoreState) (now : Nat) :
    (setCurrentUserId st 0).currentUserId = some 0 ∧
    (getPersonalMessages (setCurrentUserId st 0) now).fst = [] ∧
    (getPersonalMessages (setCurrentUserId st 0) now).snd.consoleWarnings =
      st.consoleWarnings ++ ["Current user ID is not set"] := by
  have hfalse : userIdTruthy (setCurrentUserId st 0).currentUserId = false := rfl
  refine ⟨rfl, ?_⟩
  unfold getPersonalMessages
  split
  · exact ⟨rfl, rfl⟩
  · rename_i hguard
    rw [hfalse] at hguard
    simp at hguard

/-- Claim C10, confirmed.  With no viewer identity set,
verifyMessageCategory(m, PERSONAL) skips the reciprocity check entirely: for
a user-kind peer whose resolved chat is a non-bot user with a
non-lexicon-matching title and whose determined chat type is Personal, it
returns true regardless of the sender and peer user ids. -/
theorem claim_C10 (st : StoreState) (m : Message) (uid : Int) (c : Chat)
    (huser : st.currentUserId = none)
    (hp : m.peer_id = some (Peer.peerUser uid))
    (hc : m.peerId = some c)
    (_hkind : c.kind = "user") (hbot : c.bot = false)
    (hpub : isPublicChannelByName c.title = false)
    (hdet : (determineChatType st c m).fst = ChatType.PERSONAL) :
    (verifyMessageCategory st m ChatType.PERSONAL).fst = true := by
  unfold verifyMessageCategory
  rw [hp, hc]
  dsimp only
  have h1 : (ChatType.PERSONAL == ChatType.PERSONAL && (c.kind == "user" && c.bot))
      = false := by rw [hbot]; simp
  have h2 : (ChatType.PERSONAL == ChatType.PERSONAL && titlePublicMatch c.title)
      = false := by simp [titlePublicMatch, hpub]
  have h3 : userIdTruthy st.currentUserId = false := by rw [huser]; rfl
  have h4 : titlePublicMatch c.title = false := by simp [titlePublicMatch, hpub]
  simp [h1, h2, h3, h4, hbot, hdet]

/-! ## Counterexamples and witnesses -/

set_option maxRecDepth 100000 in
/-- Claim C1, as stated, is false: with two ledger messages resolving
conflicting chat data for the same chat id, one message lands in both the
news and the discussion sequences. -/
theorem claim_C1_counterexample :
    mChanB ∈ (getGroupedMessagesByCategory stCounter 1).fst.news ∧
    mChanB ∈ (getGroupedMessagesByCategory stCounter 1).fst.discussion := by
  constructor
  · decide
  · decide

/-- Witness for the amended claim C1 at a concrete consistent store. -/
theorem claim_C1_witness :
    (mWitChan ∈ (getGroupedMessagesByCategory stWitness 1).fst.personal →
      mWitChan ∉ (getGroupedMessagesByCategory stWitness 1).fst.news ∧
      mWitChan ∉ (getGroupedMessagesByCategory stWitness 1).fst.discussion) ∧
    (mWitChan ∈ (getGroupedMessagesByCategory stWitness 1).fst.news →
      mWitChan ∉ (getGroupedMessagesByCategory stWitness 1).fst.discussion) ∧
    ((mWitChan ∈ (getGroupedMessagesByCategory stWitness 1).fst.personal ∨
      mWitChan ∈ (getGroupedMessagesByCategory stWitness 1).fst.news ∨
      mWitChan ∈ (getGroupedMessagesByCategory stWitness 1).fst.discussion) →
      mWitChan ∈ stWitness.messages) :=
  claim_C1 stWitness 1 mWitChan rfl rfl rfl rfl (chatConsistent_of_check (by decide))

/-- Claim C2, as stated, is false: the appended two-participant group message
does not appear in the personal sequence. -/
theorem claim_C2_counterexample :
    msgC2 ∈ stC2.messages ∧
    msgC2 ∉ (getGroupedMessagesByCategory stC2 1).fst.personal := by
  constructor
  · decide
  · decide

/-- Witness for the amended claim C2 at the concrete store. -/
theorem claim_C2_witness :
    msgC2 ∉ (getPersonalMessages (addMessages (setCurrentUserId initialStore 12345)
      [msgC2]) 1).fst ∧
    (determineChatType (addMessages (setCurrentUserId initialStore 12345) [msgC2])
      chatC2 msgC2).fst = ChatType.PERSONAL :=
  claim_C2 initialStore 12345 msgC2 chatC2 5 1 rfl rfl rfl rfl rfl rfl

/-- Claim C3, as stated, is false: verifying a message whose chat id is
uncached inserts a new entry into the classification cache. -/
theorem claim_C3_counterexample :
    (verifyMessageCategory initialStore mChanA ChatType.NEWS).snd.chatTypeCache ≠
      initialStore.chatTypeCache := by decide

/-- Claim C4, as stated, is false: a message with a channel-kind sender
reference turns a five-participant group into News, not Discussion. -/
theorem claim_C4_counterexample :
    (determineChatType initialStore chatC4 msgC4).fst = ChatType.NEWS ∧
    (determineChatType initialStore chatC4 msgC4).fst ≠ ChatType.DISCUSSION := by
  decide

/-- Witness for the amended claim C4 at the concrete chat and message. -/
theorem claim_C4_witness :
    (determineChatType initialStore chatC4 msgC4b).fst = ChatType.DISCUSSION :=
  claim_C4 initialStore chatC4 msgC4b 5 rfl rfl rfl (by decide) rfl rfl rfl

/-- Claim C5, as stated, is false: a ledger message with a channel-kind peer
but no resolved chat data is not returned by getNewsMessages. -/
theorem claim_C5_counterexample :
    msgC5 ∈ stC5.messages ∧ msgC5 ∉ (getNewsMessages stC5 1).fst := by
  constructor
  · decide
  · decide

/-- Witness for the amended claim C5 at the concrete store. -/
theorem claim_C5_witness :
    msgC5w ∈ (getNewsMessages stC5w 1).fst :=
  claim_C5 stC5w 1 msgC5w chatC5 11 rfl rfl (chatConsistent_of_check (by decide))
    (by decide) rfl rfl rfl rfl

/-- Witness for claim C6: the value cached for id 3 from a user chat is
returned even for a later channel chat with the same id, across an
intervening getNewsMessages call. -/
theorem claim_C6_witness :
    (determineChatType (runReadOps stC6after [ReadOp.getNews 1]) chatC6b msgC6b).fst
      = ChatType.PERSONAL :=
  claim_C6 initialStore chatC6a msgC6a ChatType.PERSONAL stC6after [ReadOp.getNews 1]
    chatC6b msgC6b (by decide) (by decide)

/-- Witness for claim C7 at a concrete store and clock values. -/
theorem claim_C7_witness :
    (getPersonalMessages (getPersonalMessages stC7 1).snd 2).fst =
      (getPersonalMessages stC7 1).fst ∧
    (getNewsMessages (getNewsMessages stC7 1).snd 2).fst =
      (getNewsMessages stC7 1).fst ∧
    (getDiscussionMessages (getDiscussionMessages stC7 1).snd 2).fst =
      (getDiscussionMessages stC7 1).fst :=
  claim_C7 stC7 1 2 (by decide)

/-- Witness for claim C8 at the fresh store. -/
theorem claim_C8_witness :
    (getPersonalMessages initialStore 1).fst = [] ∧
    (getPersonalMessages initialStore 1).snd.consoleWarnings =
      initialStore.consoleWarnings ++ ["Current user ID is not set"] ∧
    (getPersonalMessages initialStore 1).snd.messages = initialStore.messages :=
  claim_C8 initialStore 1 rfl

/-- Witness for claim C10: sender 500 and addressee 201 are unrelated to any
viewer, the store has no viewer identity, and the verification still accepts
the message as Personal. -/
theorem claim_C10_witness :
    (verifyMessageCategory initialStore msgC10 ChatType.PERSONAL).fst = true :=
  claim_C10 initialStore msgC10 201 chatC10 rfl rfl rfl rfl rfl rfl (by decide)

end MessageStorage
